import Mathlib

/-!
Shallow embedding of the TechnoJays robot2013 control program.

Conventions of the embedding:
* C++ `float`/`double` values are modelled as exact rationals (`ℚ`); every
  comparison and arithmetic operation is translated literally from the source.
* Encoder counts and the thresholds compared against them are C++ `int`,
  modelled as `ℤ`.
* A motor write (`controller->Set`, `robot_drive_->ArcadeDrive`, ...) is
  recorded as an `Option` result: `none` means the function returned without
  writing to the motor, `some v` means the value v was written.
* Hardware reads (sensors, joysticks, the monotonic clock, the vision
  snapshot copied out by `Targeting::GetTargets`) are supplied by an
  environment record, one per control tick.
* Member variables named `foo_` in the C++ keep their trailing underscore.
-/

namespace Robot2013

/-- The general directional enum from common.h. -/
inductive Direction
  | kLeft
  | kRight
  | kForward
  | kBackward
  | kUp
  | kDown
deriving DecidableEq, Repr

/-- The per-routine step enum used by technojays.h (kStep1..kStep15, kFinished). -/
inductive RStep
  | kStep1
  | kStep2
  | kStep3
  | kStep4
  | kStep5
  | kStep6
  | kStep7
  | kStep8
  | kStep9
  | kStep10
  | kStep11
  | kStep12
  | kStep13
  | kStep14
  | kStep15
  | kFinished
deriving DecidableEq, Repr

/-- Model of the external WPILib Timer collaborator (out of scope per the
spec, exposed as read/reset/start/stop calls).  `acc` is the accumulated
time while stopped, `startT` the clock value at which it was last started. -/
structure TimerState where
  running : Bool
  startT : ℚ
  acc : ℚ
deriving DecidableEq, Repr

namespace TimerState

/-- Timer::Get at clock value `now`. -/
def get (t : TimerState) (now : ℚ) : ℚ :=
  if t.running then t.acc + (now - t.startT) else t.acc

/-- Timer::Stop at clock value `now`: accumulate and halt. -/
def stop (t : TimerState) (now : ℚ) : TimerState :=
  if t.running then ⟨false, t.startT, t.acc + (now - t.startT)⟩ else t

/-- Timer::Reset at clock value `now`: zero the accumulated time. -/
def reset (t : TimerState) (now : ℚ) : TimerState :=
  ⟨t.running, now, 0⟩

/-- Timer::Start at clock value `now`. -/
def start (t : TimerState) (now : ℚ) : TimerState :=
  if t.running then t else ⟨true, now, t.acc⟩

end TimerState

/-! ## DriveTrain (drivetrain.cpp) -/

/-- Configuration of the drive train, loaded from the parameter file
(drivetrain.cpp LoadParameters). -/
structure DriveTrainConfig where
  normal_linear_speed_ratio_ : ℚ
  turbo_linear_speed_ratio_ : ℚ
  normal_turning_speed_ratio_ : ℚ
  turbo_turning_speed_ratio_ : ℚ
  auto_far_linear_speed_ratio_ : ℚ
  auto_medium_linear_speed_ratio_ : ℚ
  auto_near_linear_speed_ratio_ : ℚ
  auto_far_turning_speed_ratio_ : ℚ
  auto_medium_turning_speed_ratio_ : ℚ
  auto_near_turning_speed_ratio_ : ℚ
  forward_direction_ : ℚ
  backward_direction_ : ℚ
  left_direction_ : ℚ
  right_direction_ : ℚ
  distance_threshold_ : ℚ
  auto_medium_distance_threshold_ : ℚ
  auto_far_distance_threshold_ : ℚ
  heading_threshold_ : ℚ
  auto_medium_heading_threshold_ : ℚ
  auto_far_heading_threshold_ : ℚ
  time_threshold_ : ℚ
  auto_medium_time_threshold_ : ℚ
  auto_far_time_threshold_ : ℚ
  maximum_linear_speed_change_ : ℚ
  maximum_turn_speed_change_ : ℚ

/-- Mutable state of the DriveTrain object.  `robot_drive_present` models
`robot_drive_ != NULL`. -/
structure DriveTrainState where
  robot_drive_present : Bool
  accelerometer_enabled_ : Bool
  gyro_enabled_ : Bool
  gyro_angle_ : ℚ
  acceleration_ : ℚ
  distance_traveled_ : ℚ
  adjustment_in_progress_ : Bool
  initial_heading_ : ℚ
  previous_linear_speed_ : ℚ
  previous_turn_speed_ : ℚ
  timer_ : TimerState

namespace DriveTrain

/-- DriveTrain::ReadSensors (drivetrain.cpp:330-344).  The gyro reading,
the accelerometer reading and the acceleration-timer loop time are
environment inputs. -/
def readSensors (st : DriveTrainState) (gyro accel loop_time : ℚ) : DriveTrainState :=
  let st := if st.gyro_enabled_ then { st with gyro_angle_ := gyro } else st
  if st.accelerometer_enabled_ then
    { st with acceleration_ := accel,
              distance_traveled_ := st.distance_traveled_ + accel * loop_time * loop_time }
  else st

/-- DriveTrain::ResetSensors (drivetrain.cpp:349-357). -/
def resetSensors (st : DriveTrainState) : DriveTrainState :=
  if st.accelerometer_enabled_ then { st with distance_traveled_ := 0 } else st

/-- DriveTrain::ResetAndStartTimer (drivetrain.cpp:362-368). -/
def resetAndStartTimer (st : DriveTrainState) (now : ℚ) : DriveTrainState :=
  { st with timer_ := ((st.timer_.stop now).reset now).start now }

/-- DriveTrain::GetHeading (drivetrain.cpp:801). -/
def getHeading (st : DriveTrainState) : ℚ := st.gyro_angle_

/-- DriveTrain::Drive(double directional_length, float speed)
(drivetrain.cpp:503-545), the position-based motion primitive for the
chassis.  Returns the ArcadeDrive write issued (linear, turn) if any,
and the completion flag. -/
def drive_distance (cfg : DriveTrainConfig) (st : DriveTrainState)
    (directional_length speed : ℚ) : Option (ℚ × ℚ) × Bool :=
  if st.robot_drive_present = false ∨ st.accelerometer_enabled_ = false then
    (none, true)
  else
    let direction_multiplier :=
      if directional_length > 0 then cfg.forward_direction_ else cfg.backward_direction_
    let distance_left := |directional_length| - |st.distance_traveled_|
    if distance_left < cfg.distance_threshold_ then
      (some (0, 0), true)
    else
      let m :=
        if distance_left > cfg.auto_far_distance_threshold_ then
          direction_multiplier * speed * cfg.auto_far_linear_speed_ratio_
        else if distance_left > cfg.auto_medium_distance_threshold_ then
          direction_multiplier * speed * cfg.auto_medium_linear_speed_ratio_
        else
          direction_multiplier * speed * cfg.auto_near_linear_speed_ratio_
      (some (m, 0), false)

/-- DriveTrain::Drive(double time, Direction direction, float speed)
(drivetrain.cpp:555-601), the time-based variant.  Also returns the
updated state because completion stops the drive timer. -/
def drive_timed (cfg : DriveTrainConfig) (st : DriveTrainState)
    (time : ℚ) (direction : Direction) (speed : ℚ) (now : ℚ) :
    DriveTrainState × Option (ℚ × ℚ) × Bool :=
  if st.robot_drive_present = false then
    (st, none, true)
  else
    let elapsed_time := st.timer_.get now
    let time_left := time - elapsed_time
    if time_left < cfg.time_threshold_ ∨ time_left < 0 then
      ({ st with timer_ := st.timer_.stop now }, some (0, 0), true)
    else
      let directional_speed :=
        if direction = Direction.kForward then cfg.forward_direction_
        else cfg.backward_direction_
      let directional_speed :=
        if time_left > cfg.auto_far_time_threshold_ then
          directional_speed * speed * cfg.auto_far_linear_speed_ratio_
        else if time_left > cfg.auto_medium_time_threshold_ then
          directional_speed * speed * cfg.auto_medium_linear_speed_ratio_
        else
          directional_speed * speed * cfg.auto_near_linear_speed_ratio_
      (st, some (directional_speed, 0), false)

/-- DriveTrain::AdjustHeading (drivetrain.cpp:446-494).  Latches the gyro
angle into `initial_heading_` on the first call of an adjustment. -/
def adjustHeading (cfg : DriveTrainConfig) (st : DriveTrainState)
    (adjustment speed : ℚ) : DriveTrainState × Option (ℚ × ℚ) × Bool :=
  if st.robot_drive_present = false ∨ st.gyro_enabled_ = false then
    ({ st with adjustment_in_progress_ := false }, none, true)
  else
    let st :=
      if st.adjustment_in_progress_ = false then
        { st with initial_heading_ := st.gyro_angle_, adjustment_in_progress_ := true }
      else st
    let angle_remaining := (st.initial_heading_ + adjustment) - st.gyro_angle_
    let turn_direction :=
      if angle_remaining < 0 then cfg.left_direction_ else cfg.right_direction_
    if |angle_remaining| < cfg.heading_threshold_ then
      ({ st with adjustment_in_progress_ := false }, some (0, 0), true)
    else
      let turn_direction :=
        if |angle_remaining| > cfg.auto_far_heading_threshold_ then
          turn_direction * speed * cfg.auto_far_turning_speed_ratio_
        else if |angle_remaining| > cfg.auto_medium_heading_threshold_ then
          turn_direction * speed * cfg.auto_medium_turning_speed_ratio_
        else
          turn_direction * speed * cfg.auto_near_turning_speed_ratio_
      (st, some (0, turn_direction), false)

/-- DriveTrain::Turn(float heading, float speed) (drivetrain.cpp:697-738),
gyro-based turn toward an absolute heading. -/
def turn_heading (cfg : DriveTrainConfig) (st : DriveTrainState)
    (heading speed : ℚ) : Option (ℚ × ℚ) × Bool :=
  if st.robot_drive_present = false ∨ st.gyro_enabled_ = false then
    (none, true)
  else
    let angle_remaining := heading - st.gyro_angle_
    let turn_direction :=
      if angle_remaining < 0 then cfg.left_direction_ else cfg.right_direction_
    if |angle_remaining| < cfg.heading_threshold_ then
      (some (0, 0), true)
    else
      let turn_direction :=
        if |angle_remaining| > cfg.auto_far_heading_threshold_ then
          turn_direction * speed * cfg.auto_far_turning_speed_ratio_
        else if |angle_remaining| > cfg.auto_medium_heading_threshold_ then
          turn_direction * speed * cfg.auto_medium_turning_speed_ratio_
        else
          turn_direction * speed * cfg.auto_near_turning_speed_ratio_
      (some (0, turn_direction), false)

/-- DriveTrain::Turn(double time, Direction direction, float speed)
(drivetrain.cpp:748-794), time-based turn. -/
def turn_timed (cfg : DriveTrainConfig) (st : DriveTrainState)
    (time : ℚ) (direction : Direction) (speed : ℚ) (now : ℚ) :
    DriveTrainState × Option (ℚ × ℚ) × Bool :=
  if st.robot_drive_present = false then
    (st, none, true)
  else
    let elapsed_time := st.timer_.get now
    let time_left := time - elapsed_time
    if time_left < cfg.time_threshold_ ∨ time_left < 0 then
      ({ st with timer_ := st.timer_.stop now }, some (0, 0), true)
    else
      let directional_speed :=
        if direction = Direction.kLeft then cfg.left_direction_ else cfg.right_direction_
      let directional_speed :=
        if time_left > cfg.auto_far_time_threshold_ then
          directional_speed * speed * cfg.auto_far_turning_speed_ratio_
        else if time_left > cfg.auto_medium_time_threshold_ then
          directional_speed * speed * cfg.auto_medium_turning_speed_ratio_
        else
          directional_speed * speed * cfg.auto_near_turning_speed_ratio_
      (st, some (0, directional_speed), false)

/-- DriveTrain::Drive(float directional_speed, float directional_turn, bool
turbo) (drivetrain.cpp:610-659), the manual arcade drive with the
speed-ramp smoothing.  Updates the previous-speed state. -/
def drive_manual (cfg : DriveTrainConfig) (st : DriveTrainState)
    (directional_speed directional_turn : ℚ) (turbo : Bool) :
    DriveTrainState × Option (ℚ × ℚ) :=
  if st.robot_drive_present = false then
    (st, none)
  else
    let linear :=
      if turbo then cfg.turbo_linear_speed_ratio_ * directional_speed
      else cfg.normal_linear_speed_ratio_ * directional_speed
    let turn :=
      if turbo then cfg.turbo_turning_speed_ratio_ * directional_turn
      else cfg.normal_turning_speed_ratio_ * directional_turn
    let linear :=
      if |linear - st.previous_linear_speed_| > cfg.maximum_linear_speed_change_ then
        if linear - st.previous_linear_speed_ < 0 then
          st.previous_linear_speed_ - cfg.maximum_linear_speed_change_
        else
          st.previous_linear_speed_ + cfg.maximum_linear_speed_change_
      else linear
    let turn :=
      if |turn - st.previous_turn_speed_| > cfg.maximum_turn_speed_change_ then
        if turn - st.previous_turn_speed_ < 0 then
          st.previous_turn_speed_ - cfg.maximum_turn_speed_change_
        else
          st.previous_turn_speed_ + cfg.maximum_turn_speed_change_
      else turn
    ({ st with previous_linear_speed_ := linear, previous_turn_speed_ := turn },
     some (linear, turn))

/-- DriveTrain::TankDrive (drivetrain.cpp:668-688). -/
def tankDrive (cfg : DriveTrainConfig) (st : DriveTrainState)
    (left_stick right_stick : ℚ) (turbo : Bool) : Option (ℚ × ℚ) :=
  if st.robot_drive_present = false then
    none
  else if turbo then
    some (cfg.turbo_linear_speed_ratio_ * left_stick,
          cfg.turbo_linear_speed_ratio_ * right_stick)
  else
    some (cfg.normal_linear_speed_ratio_ * left_stick,
          cfg.normal_linear_speed_ratio_ * right_stick)

end DriveTrain

/-! ## Shooter (shooter.cpp) -/

/-- Configuration of the shooter, loaded from the parameter file. -/
structure ShooterConfig where
  encoder_threshold_ : ℤ
  auto_medium_encoder_threshold_ : ℤ
  auto_far_encoder_threshold_ : ℤ
  encoder_max_limit_ : ℤ
  encoder_min_limit_ : ℤ
  pitch_up_direction_ : ℚ
  pitch_down_direction_ : ℚ
  auto_far_speed_ratio_ : ℚ
  auto_medium_speed_ratio_ : ℚ
  auto_near_speed_ratio_ : ℚ
  time_threshold_ : ℚ
  auto_medium_time_threshold_ : ℚ
  auto_far_time_threshold_ : ℚ
  angle_linear_fit_gradient_ : ℚ
  angle_linear_fit_constant_ : ℚ
  invert_multiplier_ : ℚ
  pitch_turbo_speed_ratio_ : ℚ
  pitch_normal_speed_ratio_ : ℚ
  shooter_power_adjustment_ratio_ : ℚ
  shooter_min_power_speed_ : ℚ
  shooter_normal_speed_ratio_ : ℚ

/-- Mutable state of the Shooter object. -/
structure ShooterState where
  encoder_enabled_ : Bool
  pitch_enabled_ : Bool
  shooter_enabled_ : Bool
  encoder_count_ : ℤ
  timer_ : TimerState

namespace Shooter

/-- Shooter::ReadSensors (part_004:2284-2288). -/
def readSensors (st : ShooterState) (encoder : ℤ) : ShooterState :=
  if st.encoder_enabled_ then { st with encoder_count_ := encoder } else st

/-- Shooter::ResetAndStartTimer (part_004:2293-2299). -/
def resetAndStartTimer (st : ShooterState) (now : ℚ) : ShooterState :=
  { st with timer_ := ((st.timer_.stop now).reset now).start now }

/-- Shooter::SetPitch(int encoder_count, float speed) (part_004:2372-2429),
the position-based pitch motion.  Returns the pitch-controller write issued
(if any) and the completion flag.  Note that the boundary-limit abort paths
return true without writing to the motor. -/
def setPitch (cfg : ShooterConfig) (st : ShooterState)
    (encoder_count : ℤ) (speed : ℚ) : Option ℚ × Bool :=
  if st.encoder_enabled_ = false ∨ st.pitch_enabled_ = false then
    (none, true)
  else if cfg.encoder_max_limit_ > 0 ∧ encoder_count > st.encoder_count_ ∧
      st.encoder_count_ > cfg.encoder_max_limit_ then
    (none, true)
  else if cfg.encoder_min_limit_ > 0 ∧ encoder_count < st.encoder_count_ ∧
      st.encoder_count_ < cfg.encoder_min_limit_ then
    (none, true)
  else if |encoder_count - st.encoder_count_| ≤ cfg.encoder_threshold_ then
    (some 0, true)
  else
    let movement_direction :=
      if encoder_count - st.encoder_count_ > 0 then
        if |encoder_count - st.encoder_count_| > cfg.auto_far_encoder_threshold_ then
          cfg.pitch_up_direction_ * speed * cfg.auto_far_speed_ratio_
        else if |encoder_count - st.encoder_count_| > cfg.auto_medium_encoder_threshold_ then
          cfg.pitch_up_direction_ * speed * cfg.auto_medium_speed_ratio_
        else
          cfg.pitch_up_direction_ * speed * cfg.auto_near_speed_ratio_
      else
        if |encoder_count - st.encoder_count_| > cfg.auto_far_encoder_threshold_ then
          cfg.pitch_down_direction_ * speed * cfg.auto_far_speed_ratio_
        else if |encoder_count - st.encoder_count_| > cfg.auto_medium_encoder_threshold_ then
          cfg.pitch_down_direction_ * speed * cfg.auto_medium_speed_ratio_
        else
          cfg.pitch_down_direction_ * speed * cfg.auto_near_speed_ratio_
    (some movement_direction, false)

/-- Shooter::SetPitch(double time, Direction direction, float speed)
(part_004:2441-2500), the time-based pitch motion. -/
def setPitchTimed (cfg : ShooterConfig) (st : ShooterState)
    (time : ℚ) (direction : Direction) (speed : ℚ) (now : ℚ) :
    ShooterState × Option ℚ × Bool :=
  if st.pitch_enabled_ = false then
    (st, none, true)
  else
    let elapsed_time := st.timer_.get now
    let time_left := time - elapsed_time
    if st.encoder_enabled_ ∧ cfg.encoder_max_limit_ > 0 ∧ direction = Direction.kUp ∧
        st.encoder_count_ > cfg.encoder_max_limit_ then
      (st, none, true)
    else if st.encoder_enabled_ ∧ cfg.encoder_min_limit_ > 0 ∧ direction = Direction.kDown ∧
        st.encoder_count_ < cfg.encoder_min_limit_ then
      (st, none, true)
    else if time_left < cfg.time_threshold_ ∨ time_left < 0 then
      ({ st with timer_ := st.timer_.stop now }, some 0, true)
    else
      let directional_speed :=
        if direction = Direction.kUp then cfg.pitch_up_direction_
        else cfg.pitch_down_direction_
      let directional_speed :=
        if time_left > cfg.auto_far_time_threshold_ then
          directional_speed * speed * cfg.auto_far_speed_ratio_
        else if time_left > cfg.auto_medium_time_threshold_ then
          directional_speed * speed * cfg.auto_medium_speed_ratio_
        else
          directional_speed * speed * cfg.auto_near_speed_ratio_
      (st, some directional_speed, false)

/-- Shooter::SetPitchAngle (part_004:2509-2569): converts the angle to an
encoder position by the linear fit and then performs exactly the body of
the position-based SetPitch on it. -/
def setPitchAngle (cfg : ShooterConfig) (st : ShooterState)
    (angle speed : ℚ) : Option ℚ × Bool :=
  setPitch cfg st ⌊cfg.angle_linear_fit_gradient_ * angle + cfg.angle_linear_fit_constant_⌋ speed

/-- Shooter::MovePitch (part_004:2577-2609), manual pitch control with the
soft-limit clamp. -/
def movePitch (cfg : ShooterConfig) (st : ShooterState)
    (directional_speed : ℚ) (turbo : Bool) : Option ℚ :=
  if st.pitch_enabled_ = false then
    none
  else
    let directional_speed := directional_speed * cfg.invert_multiplier_
    let directional_speed :=
      if st.encoder_enabled_ ∧ cfg.encoder_max_limit_ > 0 ∧
          directional_speed * cfg.pitch_up_direction_ > 0 ∧
          st.encoder_count_ > cfg.encoder_max_limit_ then 0
      else directional_speed
    let directional_speed :=
      if st.encoder_enabled_ ∧ cfg.encoder_min_limit_ > 0 ∧
          directional_speed * cfg.pitch_down_direction_ > 0 ∧
          st.encoder_count_ < cfg.encoder_min_limit_ then 0
      else directional_speed
    if turbo then some (directional_speed * cfg.pitch_turbo_speed_ratio_)
    else some (directional_speed * cfg.pitch_normal_speed_ratio_)

/-- Shooter::Shoot(int power_as_percent) (part_004:2619-2638). -/
def shoot (cfg : ShooterConfig) (st : ShooterState) (power_as_percent : ℤ) : Option ℚ :=
  if st.shooter_enabled_ = false then
    none
  else if power_as_percent = 0 then
    some 0
  else if power_as_percent > 0 then
    some (((power_as_percent : ℚ) * cfg.shooter_power_adjustment_ratio_ +
      cfg.shooter_min_power_speed_) * cfg.shooter_normal_speed_ratio_)
  else
    some (((power_as_percent : ℚ) * cfg.shooter_power_adjustment_ratio_ -
      cfg.shooter_min_power_speed_) * cfg.shooter_normal_speed_ratio_)

end Shooter

/-! ## Climber (climber.cpp, part_002) -/

/-- Configuration of the climber winch, loaded from the parameter file. -/
structure ClimberConfig where
  encoder_threshold_ : ℤ
  auto_medium_encoder_threshold_ : ℤ
  auto_far_encoder_threshold_ : ℤ
  encoder_max_limit_ : ℤ
  encoder_min_limit_ : ℤ
  up_direction_ : ℚ
  down_direction_ : ℚ
  auto_far_speed_ratio_ : ℚ
  auto_medium_speed_ratio_ : ℚ
  auto_near_speed_ratio_ : ℚ
  time_threshold_ : ℚ
  auto_medium_time_threshold_ : ℚ
  auto_far_time_threshold_ : ℚ
  invert_multiplier_ : ℚ
  turbo_up_speed_ratio_ : ℚ
  turbo_down_speed_ratio_ : ℚ
  normal_up_speed_ratio_ : ℚ
  normal_down_speed_ratio_ : ℚ

/-- Mutable state of the Climber object. -/
structure ClimberState where
  encoder_enabled_ : Bool
  climber_enabled_ : Bool
  encoder_count_ : ℤ
  timer_ : TimerState

namespace Climber

/-- Climber::ReadSensors. -/
def readSensors (st : ClimberState) (encoder : ℤ) : ClimberState :=
  if st.encoder_enabled_ then { st with encoder_count_ := encoder } else st

/-- Climber::ResetAndStartTimer. -/
def resetAndStartTimer (st : ClimberState) (now : ℚ) : ClimberState :=
  { st with timer_ := ((st.timer_.stop now).reset now).start now }

/-- Climber::Set(int encoder_count, float speed) (part_002:335-394), the
position-based winch motion.  Unlike Shooter::SetPitch, the boundary-limit
abort paths write an explicit zero to the motor. -/
def set (cfg : ClimberConfig) (st : ClimberState)
    (encoder_count : ℤ) (speed : ℚ) : Option ℚ × Bool :=
  if st.encoder_enabled_ = false ∨ st.climber_enabled_ = false then
    (none, true)
  else if cfg.encoder_max_limit_ > 0 ∧ encoder_count > st.encoder_count_ ∧
      st.encoder_count_ > cfg.encoder_max_limit_ then
    (some 0, true)
  else if cfg.encoder_min_limit_ > 0 ∧ encoder_count < st.encoder_count_ ∧
      st.encoder_count_ < cfg.encoder_min_limit_ then
    (some 0, true)
  else if |encoder_count - st.encoder_count_| ≤ cfg.encoder_threshold_ then
    (some 0, true)
  else
    let movement_direction :=
      if encoder_count - st.encoder_count_ > 0 then
        if |encoder_count - st.encoder_count_| > cfg.auto_far_encoder_threshold_ then
          cfg.up_direction_ * speed * cfg.auto_far_speed_ratio_
        else if |encoder_count - st.encoder_count_| > cfg.auto_medium_encoder_threshold_ then
          cfg.up_direction_ * speed * cfg.auto_medium_speed_ratio_
        else
          cfg.up_direction_ * speed * cfg.auto_near_speed_ratio_
      else
        if |encoder_count - st.encoder_count_| > cfg.auto_far_encoder_threshold_ then
          cfg.down_direction_ * speed * cfg.auto_far_speed_ratio_
        else if |encoder_count - st.encoder_count_| > cfg.auto_medium_encoder_threshold_ then
          cfg.down_direction_ * speed * cfg.auto_medium_speed_ratio_
        else
          cfg.down_direction_ * speed * cfg.auto_near_speed_ratio_
    (some movement_direction, false)

/-- Climber::Set(double time, Direction direction, float speed)
(part_002:406-469), the time-based winch motion. -/
def setTimed (cfg : ClimberConfig) (st : ClimberState)
    (time : ℚ) (direction : Direction) (speed : ℚ) (now : ℚ) :
    ClimberState × Option ℚ × Bool :=
  if st.climber_enabled_ = false then
    (st, none, true)
  else
    let elapsed_time := st.timer_.get now
    let time_left := time - elapsed_time
    if st.encoder_enabled_ ∧ cfg.encoder_max_limit_ > 0 ∧ direction = Direction.kUp ∧
        st.encoder_count_ > cfg.encoder_max_limit_ then
      ({ st with timer_ := st.timer_.stop now }, some 0, true)
    else if st.encoder_enabled_ ∧ cfg.encoder_min_limit_ > 0 ∧ direction = Direction.kDown ∧
        st.encoder_count_ < cfg.encoder_min_limit_ then
      ({ st with timer_ := st.timer_.stop now }, some 0, true)
    else if time_left < cfg.time_threshold_ ∨ time_left < 0 then
      ({ st with timer_ := st.timer_.stop now }, some 0, true)
    else
      let directional_speed :=
        if direction = Direction.kUp then cfg.up_direction_ else cfg.down_direction_
      let directional_speed :=
        if time_left > cfg.auto_far_time_threshold_ then
          directional_speed * speed * cfg.auto_far_speed_ratio_
        else if time_left > cfg.auto_medium_time_threshold_ then
          directional_speed * speed * cfg.auto_medium_speed_ratio_
        else
          directional_speed * speed * cfg.auto_near_speed_ratio_
      (st, some directional_speed, false)

/-- Climber::Move (part_002:477-518), manual winch control with the
soft-limit clamp and asymmetric up/down speed ratios. -/
def move (cfg : ClimberConfig) (st : ClimberState)
    (directional_speed : ℚ) (turbo : Bool) : Option ℚ :=
  if st.climber_enabled_ = false then
    none
  else
    let directional_speed := directional_speed * cfg.invert_multiplier_
    let directional_speed :=
      if st.encoder_enabled_ ∧ cfg.encoder_max_limit_ > 0 ∧
          directional_speed * cfg.up_direction_ > 0 ∧
          st.encoder_count_ > cfg.encoder_max_limit_ then 0
      else directional_speed
    let directional_speed :=
      if st.encoder_enabled_ ∧ cfg.encoder_min_limit_ > 0 ∧
          directional_speed * cfg.down_direction_ > 0 ∧
          st.encoder_count_ < cfg.encoder_min_limit_ then 0
      else directional_speed
    if turbo then
      if directional_speed * cfg.up_direction_ ≥ 0 then
        some (directional_speed * cfg.turbo_up_speed_ratio_)
      else
        some (directional_speed * cfg.turbo_down_speed_ratio_)
    else
      if directional_speed * cfg.up_direction_ ≥ 0 then
        some (directional_speed * cfg.normal_up_speed_ratio_)
      else
        some (directional_speed * cfg.normal_down_speed_ratio_)

end Climber

/-! ## Feeder (feeder.cpp) -/

/-- State of the Feeder object; the piston write is recorded in the trace. -/
structure FeederState where
  feeder_enabled_ : Bool
  solenoid_enabled_ : Bool

namespace Feeder

/-- Feeder::SetPiston (feeder.cpp:234-239). -/
def setPiston (st : FeederState) (state : Bool) : Option Bool :=
  if st.feeder_enabled_ = false ∨ st.solenoid_enabled_ = false then none
  else some state

end Feeder

/-! ## Targeting (targeting.cpp) -/

/-- The fields of a WPILib ParticleAnalysisReport used by this program. -/
structure ParticleReport where
  boundingRect_width : ℤ
  boundingRect_height : ℤ
  center_mass_x : ℤ
  center_mass_y : ℤ
  particleArea : ℚ
  imageWidth : ℤ
  imageHeight : ℤ

/-- Target height classification enum (targeting.h). -/
inductive TargetHeight
  | kHigh
  | kMedium
  | kLow
  | kUnknown
deriving DecidableEq, Repr

/-- Configuration of the targeting module, loaded from the parameter file. -/
structure TargetingConfig where
  camera_view_angle_ : ℚ
  angle_of_target_horiztonal_offset_ : ℚ
  target_rectangle_ratio_high_ : ℚ
  target_rectangle_ratio_medium_ : ℚ
  target_rectangle_ratio_low_ : ℚ
  target_rectangle_ratio_threshold_ : ℚ
  target_rectangle_ratio_minimum_ : ℚ
  target_rectangle_ratio_maximum_ : ℚ
  target_rectangle_score_threshold_ : ℚ

namespace Targeting

/-- The physical height literal returned for a high target,
9.177083 feet (targeting.cpp:327). -/
def highPhysicalHeight : ℚ := 9177083 / 1000000

/-- The physical height literal returned for a medium target,
8.2604167 feet (targeting.cpp:330). -/
def mediumPhysicalHeight : ℚ := 82604167 / 10000000

/-- The physical height literal returned for a low target,
2.583 feet (targeting.cpp:333). -/
def lowPhysicalHeight : ℚ := 2583 / 1000

/-- The aspect ratio width/height of a detection bounding box
(targeting.cpp:323 and :711). -/
def rectangleRatio (t : ParticleReport) : ℚ :=
  (t.boundingRect_width : ℚ) / (t.boundingRect_height : ℚ)

/-- The rectangularity score: filled area over bounding-box area times 100
(targeting.cpp:713-714). -/
def rectangleScore (t : ParticleReport) : ℚ :=
  t.particleArea / ((t.boundingRect_width : ℚ) * (t.boundingRect_height : ℚ)) * 100

/-- Targeting::GetCameraHeightOfTarget (targeting.cpp:321-348): nearest-match
of the aspect ratio against the three calibrated profiles, first match in
the order high, medium, low; anything else yields 0.0. -/
def getCameraHeightOfTarget (cfg : TargetingConfig) (t : ParticleReport) : ℚ :=
  let rectangle_ratio := rectangleRatio t
  if |rectangle_ratio - cfg.target_rectangle_ratio_high_| <
      cfg.target_rectangle_ratio_threshold_ then
    highPhysicalHeight
  else if |rectangle_ratio - cfg.target_rectangle_ratio_medium_| <
      cfg.target_rectangle_ratio_threshold_ then
    mediumPhysicalHeight
  else if |rectangle_ratio - cfg.target_rectangle_ratio_low_| <
      cfg.target_rectangle_ratio_threshold_ then
    lowPhysicalHeight
  else
    0

/-- Targeting::GetEnumHeightOfTarget (targeting.cpp:356-372): converts the
height value back to the enumeration by exact comparison with the three
height literals. -/
def getEnumHeightOfTarget (cfg : TargetingConfig) (t : ParticleReport) : TargetHeight :=
  let height := getCameraHeightOfTarget cfg t
  if height = highPhysicalHeight then TargetHeight.kHigh
  else if height = mediumPhysicalHeight then TargetHeight.kMedium
  else if height = lowPhysicalHeight then TargetHeight.kLow
  else TargetHeight.kUnknown

/-- Targeting::GetHorizontalAngleOfTarget (targeting.cpp:282-285). -/
def getHorizontalAngleOfTarget (cfg : TargetingConfig) (t : ParticleReport) : ℚ :=
  -(cfg.camera_view_angle_ * ((t.imageWidth : ℚ) / 2 - (t.center_mass_x : ℚ))) /
    (t.imageWidth : ℚ) + cfg.angle_of_target_horiztonal_offset_

/-- Targeting::CompareTargets (targeting.cpp:572-581): a qsort-style
three-way comparator returning 1, -1 or 0 on the vertical centers of
mass. -/
def compareTargets (t1 t2 : ParticleReport) : ℤ :=
  if t1.center_mass_y > t2.center_mass_y then 1
  else if t1.center_mass_y < t2.center_mass_y then -1
  else 0

/-- The comparator std::sort actually receives in
`sort(begin, end, Targeting::CompareTargets)` (targeting.cpp:728): the int
return value undergoes the standard conversion to bool, so the predicate
holds whenever the result is non-zero. -/
def compareTargetsAsBool (t1 t2 : ParticleReport) : Bool :=
  compareTargets t1 t2 ≠ 0

/-- The per-detection filter of FindTargetsTask (targeting.cpp:719): a
detection is erased when its ratio is outside the configured band or its
score is below the threshold, and kept otherwise. -/
def keepTarget (cfg : TargetingConfig) (t : ParticleReport) : Bool :=
  ¬(rectangleRatio t < cfg.target_rectangle_ratio_minimum_ ∨
    rectangleRatio t > cfg.target_rectangle_ratio_maximum_ ∨
    rectangleScore t < cfg.target_rectangle_score_threshold_)

/-- Insert an element into a list according to a boolean "comes before"
predicate: the generic step a comparison sort performs with the comparator
it is given. -/
def insertByLt (lt : ParticleReport → ParticleReport → Bool)
    (a : ParticleReport) : List ParticleReport → List ParticleReport
  | [] => [a]
  | b :: bs => if lt a b then a :: b :: bs else b :: insertByLt lt a bs

/-- Insertion sort with an arbitrary boolean comparator: a deterministic
model of the comparison sort that FindTargetsTask invokes.  For a valid
strict-weak-order comparator this agrees with std::sort; the comparator the
code passes is not one (see the C5 theorem). -/
def sortByLt (lt : ParticleReport → ParticleReport → Bool)
    (l : List ParticleReport) : List ParticleReport :=
  l.foldr (insertByLt lt) []

/-- The filter-then-sort step FindTargetsTask applies inside the critical
region before publishing the snapshot (targeting.cpp:707-728). -/
def publishSnapshot (cfg : TargetingConfig) (report : List ParticleReport) :
    List ParticleReport :=
  sortByLt compareTargetsAsBool (report.filter (keepTarget cfg))

/-- The sorted-ascending-by-vertical-center-of-mass invariant claimed for
every published snapshot. -/
def isSortedByY : List ParticleReport → Bool
  | [] => true
  | [_] => true
  | a :: b :: rest => a.center_mass_y ≤ b.center_mass_y ∧ isSortedByY (b :: rest)

end Targeting

/-! ## AutoScript (autoscript.h / autoscript.cpp) -/

/-- The unset-parameter sentinel value -9999 used by autoscript_command. -/
def sentinel : ℚ := -9999

/-- autoscript_command (autoscript.h): a name token plus five numeric
parameters; a missing parameter holds the sentinel. -/
structure AutoCmd where
  command : String
  param1 : ℚ
  param2 : ℚ
  param3 : ℚ
  param4 : ℚ
  param5 : ℚ

/-- The command AutoScript::GetNextCommand returns past the end of the
script (autoscript.cpp:227-230). -/
def endCommand : AutoCmd :=
  ⟨"end", sentinel, sentinel, sentinel, sentinel, sentinel⟩

/-- AutoScript::GetNextCommand (autoscript.cpp:219-231): return the command
under the iterator and advance it, or the "end" command once exhausted.
The state is the list of commands not yet returned. -/
def getNextCommand : List AutoCmd → AutoCmd × List AutoCmd
  | [] => (endCommand, [])
  | c :: cs => (c, cs)

/-- Truncation toward zero, the C cast from a floating value to int. -/
def ratTrunc (q : ℚ) : ℤ :=
  if q ≥ 0 then ⌊q⌋ else -⌊-q⌋

/-- The C cast from a numeric script parameter to the Direction enum
(common.h values kLeft=0 .. kDown=5). -/
def directionOfRat (q : ℚ) : Direction :=
  if ratTrunc q = 0 then Direction.kLeft
  else if ratTrunc q = 1 then Direction.kRight
  else if ratTrunc q = 2 then Direction.kForward
  else if ratTrunc q = 3 then Direction.kBackward
  else if ratTrunc q = 4 then Direction.kUp
  else Direction.kDown

/-- The C cast from a numeric script parameter to Targeting::TargetHeight
(kHigh=0, kMedium=1, kLow=2, kUnknown=3). -/
def targetHeightOfRat (q : ℚ) : TargetHeight :=
  if ratTrunc q = 0 then TargetHeight.kHigh
  else if ratTrunc q = 1 then TargetHeight.kMedium
  else if ratTrunc q = 2 then TargetHeight.kLow
  else TargetHeight.kUnknown

/-! ## Orchestration engine (technojays.cpp, part_004) -/

/-- A call issued by TechnoJays to a subsystem controller during one tick:
the actuator/sensor boundary of the spec.  Arguments are the values passed
at the call site. -/
inductive SubsystemCall
  | driveManualCall (linear turn : ℚ) (turbo : Bool)
  | tankDriveCall (left right : ℚ) (turbo : Bool)
  | driveDistanceCall (len speed : ℚ)
  | driveTimedCall (time : ℚ) (dir : Direction) (speed : ℚ)
  | adjustHeadingCall (adj speed : ℚ)
  | turnHeadingCall (heading speed : ℚ)
  | turnTimedCall (time : ℚ) (dir : Direction) (speed : ℚ)
  | setPitchCall (count : ℤ) (speed : ℚ)
  | setPitchTimedCall (time : ℚ) (dir : Direction) (speed : ℚ)
  | setPitchAngleCall (angle speed : ℚ)
  | movePitchCall (v : ℚ) (turbo : Bool)
  | shootCall (power : ℤ)
  | climberSetCall (count : ℤ) (speed : ℚ)
  | climberSetTimedCall (time : ℚ) (dir : Direction) (speed : ℚ)
  | climberMoveCall (v : ℚ) (turbo : Bool)
  | feederPistonCall (b : Bool)

/-- Whether a subsystem call commands the chassis (the drive-train
actuator). -/
def SubsystemCall.isChassis : SubsystemCall → Bool
  | .driveManualCall _ _ _ => true
  | .tankDriveCall _ _ _ => true
  | .driveDistanceCall _ _ => true
  | .driveTimedCall _ _ _ => true
  | .adjustHeadingCall _ _ => true
  | .turnHeadingCall _ _ => true
  | .turnTimedCall _ _ _ => true
  | _ => false

/-- The logical source of a command inside one Teleop tick. -/
inductive CmdSource
  | rapidFireRoutine
  | shootRoutine
  | findTargetRoutine
  | cycleTargetRoutine
  | feederHeightRoutine
  | climbingPrepRoutine
  | climbRoutine
  | manual
deriving DecidableEq, Repr

/-- The complete state of the TechnoJays robot object together with its
owned subsystem objects and their configurations. -/
structure RobotState where
  driveCfg : DriveTrainConfig
  shooterCfg : ShooterConfig
  climberCfg : ClimberConfig
  targetingCfg : TargetingConfig
  drive : DriveTrainState
  shooter : ShooterState
  climber : ClimberState
  feeder : FeederState
  drive_present : Bool
  shooter_present : Bool
  climber_present : Bool
  feeder_present : Bool
  targeting_present : Bool
  user_interface_present : Bool
  camera_enabled_ : Bool
  timer_ : TimerState
  auto_shoot_timer_ : TimerState
  script_defined : Bool
  current_command_ : AutoCmd
  current_command_in_progress_ : Bool
  remaining_commands : List AutoCmd
  auto_shoot_state_ : RStep
  auto_rapid_fire_state_ : RStep
  auto_find_target_state_ : RStep
  auto_cycle_target_state_ : RStep
  auto_feeder_height_state_ : RStep
  auto_climbing_prep_state_ : RStep
  auto_climb_state_ : RStep
  aim_state_ : RStep
  auto_climb_pitch_finished_ : Bool
  auto_climb_winch_finished_ : Bool
  degrees_off_ : ℚ
  current_target_ : ParticleReport
  targets_report_ : List ParticleReport
  current_target_vector_location_ : ℕ
  target_report_heading_ : ℚ
  driver_turbo_ : Bool
  scoring_turbo_ : Bool
  previous_scoring_dpad_y_ : ℚ
  ignore_encoder_limits_requested_ : Bool
  detailed_logging_enabled_ : Bool
  auto_shooter_spinup_time_ : ℚ
  auto_shooter_spindown_time_ : ℚ
  auto_feeder_height_angle_ : ℚ
  auto_climbing_encoder_count_ : ℤ
  auto_climb_backup_speed_ : ℚ
  auto_climb_headstart_encoder_count_ : ℤ
  auto_climb_winch_speed_ : ℚ
  auto_climb_winch_time_ : ℚ

/-- The hardware observations of one control tick: clock, sensors,
joysticks/buttons (with their ButtonStateChanged flags), and the vision
snapshot that Targeting::GetTargets would copy out.  The vertical angle of
the current target involves an arctangent and is therefore treated as a
reading from the targeting module. -/
structure Env where
  now : ℚ
  gyro_angle : ℚ
  acceleration : ℚ
  accel_loop_time : ℚ
  shooter_encoder : ℤ
  climber_encoder : ℤ
  snapshot_available : Bool
  snapshot : List ParticleReport
  vertical_angle_reading : ℚ
  driver_left_y : ℚ
  driver_right_y : ℚ
  scoring_left_y : ℚ
  scoring_right_y : ℚ
  scoring_dpad_y : ℚ
  driver_right_bumper : Bool
  scoring_right_bumper : Bool
  scoring_left_bumper : Bool
  scoring_right_trigger : Bool
  scoring_right_trigger_changed : Bool
  scoring_x : Bool
  scoring_x_changed : Bool
  scoring_b : Bool
  scoring_b_changed : Bool
  scoring_y : Bool
  scoring_y_changed : Bool
  scoring_a : Bool
  scoring_a_changed : Bool
  scoring_start : Bool
  scoring_start_changed : Bool
  scoring_back : Bool
  scoring_back_changed : Bool
  scoring_left_trigger : Bool
  driver_b : Bool
  driver_b_changed : Bool

namespace TechnoJays

/-- The ReadSensors calls at the top of AutonomousPeriodic and
TeleopPeriodic (shooter, drive train, climber, in that order). -/
def readSensorsPeriodic (st : RobotState) (env : Env) : RobotState :=
  let st :=
    if st.shooter_present then
      { st with shooter := Shooter.readSensors st.shooter env.shooter_encoder }
    else st
  let st :=
    if st.drive_present then
      { st with drive := (DriveTrain.readSensors st.drive env.gyro_angle env.acceleration env.accel_loop_time) }
    else st
  if st.climber_present then
    { st with climber := Climber.readSensors st.climber env.climber_encoder }
  else st

/-- TechnoJays::GetTargets (part_004:1040-1067). -/
def getTargets (st : RobotState) (env : Env) : RobotState :=
  if st.targeting_present = false ∨ st.camera_enabled_ = false then st
  else
    let st := { st with targets_report_ := [] }
    let st := if st.drive_present then { st with drive := DriveTrain.resetSensors st.drive } else st
    let st := { st with target_report_heading_ := 0,
                        current_target_ := ⟨0, 0, 0, 0, 0, 0, 0⟩ }
    if env.snapshot_available = false then st
    else
      let st := { st with targets_report_ := env.snapshot }
      if st.drive_present then
        { st with target_report_heading_ := DriveTrain.getHeading st.drive }
      else st

/-- TechnoJays::NextTarget (part_004:1072-1091). -/
def nextTarget (st : RobotState) : RobotState :=
  if st.targets_report_.length > 1 then
    let loc :=
      if st.current_target_vector_location_ + 1 ≥ st.targets_report_.length then 0
      else st.current_target_vector_location_ + 1
    { st with current_target_vector_location_ := loc,
              current_target_ := st.targets_report_.getD loc st.current_target_ }
  else st

/-- TechnoJays::SelectTarget (part_004:1098-1130): first detection whose
height classification matches, else first entry for kLow, else the last
entry. -/
def selectTarget (st : RobotState) (height : TargetHeight) : RobotState :=
  if st.targets_report_.length = 0 then st
  else
    match st.targets_report_.findIdx?
        (fun t => Targeting.getEnumHeightOfTarget st.targetingCfg t == height) with
    | some i =>
        { st with current_target_ := st.targets_report_.getD i st.current_target_,
                  current_target_vector_location_ := i }
    | none =>
        if height = TargetHeight.kLow then
          { st with current_target_ := st.targets_report_.getD 0 st.current_target_,
                    current_target_vector_location_ := 0 }
        else
          let loc := st.targets_report_.length - 1
          { st with current_target_vector_location_ := loc,
                    current_target_ := st.targets_report_.getD loc st.current_target_ }

/-- TechnoJays::AimAtTarget (part_004:983-1032): heading adjustment then
pitch adjustment, with switch fallthrough from kStep1 into kStep2 and from
kStep3 into kStep4. -/
def aimAtTarget (st : RobotState) (env : Env) : RobotState × List SubsystemCall × Bool :=
  if (st.current_target_.imageWidth = 0 ∧ st.current_target_.imageHeight = 0) ∨
      st.drive_present = false ∨ st.shooter_present = false ∨
      st.targeting_present = false then
    ({ st with aim_state_ := RStep.kFinished }, [], true)
  else if st.aim_state_ = RStep.kStep1 ∨ st.aim_state_ = RStep.kStep2 then
    let st :=
      if st.aim_state_ = RStep.kStep1 then
        { st with degrees_off_ := (Targeting.getHorizontalAngleOfTarget st.targetingCfg st.current_target_), aim_state_ := RStep.kStep2 }
      else st
    let r := DriveTrain.adjustHeading st.driveCfg st.drive st.degrees_off_ 1
    let call := SubsystemCall.adjustHeadingCall st.degrees_off_ 1
    let st := { st with drive := r.1 }
    if r.2.2 then ({ st with aim_state_ := RStep.kStep3 }, [call], false)
    else (st, [call], false)
  else if st.aim_state_ = RStep.kStep3 ∨ st.aim_state_ = RStep.kStep4 then
    let st :=
      if st.aim_state_ = RStep.kStep3 then
        { st with degrees_off_ := env.vertical_angle_reading, aim_state_ := RStep.kStep4 }
      else st
    let r := Shooter.setPitchAngle st.shooterCfg st.shooter st.degrees_off_ 1
    let call := SubsystemCall.setPitchAngleCall st.degrees_off_ 1
    if r.2 then ({ st with aim_state_ := RStep.kFinished }, [call], true)
    else (st, [call], false)
  else
    ({ st with aim_state_ := RStep.kFinished }, [], true)

/-- TechnoJays::AutoFindTarget (part_004:1138-1170). -/
def autoFindTarget (st : RobotState) (env : Env) (height : TargetHeight) :
    RobotState × List SubsystemCall × Bool :=
  if st.auto_find_target_state_ = RStep.kStep1 then
    let st2 := getTargets st env
    ({ st2 with auto_find_target_state_ := RStep.kStep2 }, [], false)
  else if st.auto_find_target_state_ = RStep.kStep2 then
    let st2 := selectTarget st height
    ({ st2 with aim_state_ := RStep.kStep1, auto_find_target_state_ := RStep.kStep3 }, [], false)
  else if st.auto_find_target_state_ = RStep.kStep3 then
    let r := aimAtTarget st env
    if r.2.2 then
      ({ r.1 with aim_state_ := RStep.kFinished, auto_find_target_state_ := RStep.kFinished }, r.2.1, true)
    else (r.1, r.2.1, false)
  else
    ({ st with auto_find_target_state_ := RStep.kFinished }, [], true)

/-- Case kStep3 of TechnoJays::AutoShoot (part_004:1214-1220): actuate the
feed piston and restart the shot timer. -/
def autoShootStep3 (st : RobotState) (env : Env) : RobotState × List SubsystemCall :=
  ({ st with auto_shoot_timer_ := (st.auto_shoot_timer_.reset env.now).start env.now,
             auto_shoot_state_ := RStep.kStep4 },
   [SubsystemCall.feederPistonCall true])

/-- TechnoJays::AutoShoot (part_004:1178-1255), with the switch fallthrough
kStep1 → kStep2 → kStep3. -/
def autoShoot (st : RobotState) (env : Env) (power : ℤ) :
    RobotState × List SubsystemCall × Bool :=
  if st.feeder_present = false ∨ st.shooter_present = false ∨
      st.feeder.feeder_enabled_ = false ∨ st.shooter.shooter_enabled_ = false then
    ({ st with auto_shoot_state_ := RStep.kFinished }, [], true)
  else
    let spin := SubsystemCall.shootCall power
    if st.auto_shoot_state_ = RStep.kStep1 ∨ st.auto_shoot_state_ = RStep.kStep2 then
      let stepOne := st.auto_shoot_state_ = RStep.kStep1
      let st :=
        if stepOne then
          { st with auto_shoot_timer_ := (((st.auto_shoot_timer_.stop env.now).reset env.now).start env.now), auto_shoot_state_ := RStep.kStep2 }
        else st
      let elapsed := if stepOne then 0 else st.auto_shoot_timer_.get env.now
      if st.auto_shooter_spinup_time_ - elapsed ≤ 0 then
        let st := { st with auto_shoot_state_ := RStep.kStep3,
                            auto_shoot_timer_ := st.auto_shoot_timer_.stop env.now }
        let r := autoShootStep3 st env
        (r.1, spin :: r.2, false)
      else (st, [spin], false)
    else if st.auto_shoot_state_ = RStep.kStep3 then
      let r := autoShootStep3 st env
      (r.1, spin :: r.2, false)
    else if st.auto_shoot_state_ = RStep.kStep4 then
      let elapsed := st.auto_shoot_timer_.get env.now
      if st.auto_shooter_spindown_time_ - elapsed ≤ 0 then
        ({ st with auto_shoot_timer_ := (st.auto_shoot_timer_.stop env.now).reset env.now,
                   auto_shoot_state_ := RStep.kFinished },
         [spin, SubsystemCall.feederPistonCall false, SubsystemCall.shootCall 0], true)
      else (st, [spin], false)
    else
      ({ st with auto_shoot_state_ := RStep.kFinished },
       [spin, SubsystemCall.shootCall 0], true)

/-- The recurring feed-a-disc case of AutoRapidFire (cases kStep3, kStep6,
kStep9, kStep12 of part_004:1335-1519). -/
def rapidFireFeed (st : RobotState) (env : Env) (next : RStep) :
    RobotState × List SubsystemCall :=
  ({ st with auto_shoot_timer_ := (st.auto_shoot_timer_.reset env.now).start env.now,
             auto_rapid_fire_state_ := next },
   [SubsystemCall.feederPistonCall true])

/-- The recurring spin-down wait case of AutoRapidFire (cases kStep5,
kStep8, kStep11, kStep14). -/
def rapidFireSpindown (st : RobotState) (env : Env) (elapsed : ℚ) (next : RStep) :
    RobotState :=
  if st.auto_shooter_spindown_time_ - elapsed ≤ 0 then
    { st with auto_shoot_timer_ := st.auto_shoot_timer_.stop env.now,
              auto_rapid_fire_state_ := next }
  else st

/-- The recurring piston-retract case of AutoRapidFire (cases kStep4,
kStep7, kStep10, kStep13): after 0.3 s retract the piston, move to the
spin-down case and fall through into it within the same tick. -/
def rapidFirePistonWait (st : RobotState) (env : Env) (elapsed : ℚ)
    (spindownNext after : RStep) : RobotState × List SubsystemCall :=
  if (3 : ℚ) / 10 - elapsed ≤ 0 then
    let st := { st with auto_rapid_fire_state_ := spindownNext }
    (rapidFireSpindown st env elapsed after, [SubsystemCall.feederPistonCall false])
  else (st, [])

/-- TechnoJays::AutoRapidFire (part_004:1335-1519): same spin-up as
AutoShoot, then four feed/retract/spin-down cycles, then stop. -/
def autoRapidFire (st : RobotState) (env : Env) :
    RobotState × List SubsystemCall × Bool :=
  if st.feeder_present = false ∨ st.shooter_present = false ∨
      st.feeder.feeder_enabled_ = false ∨ st.shooter.shooter_enabled_ = false then
    ({ st with auto_rapid_fire_state_ := RStep.kFinished }, [], true)
  else
    let spin := SubsystemCall.shootCall 100
    let elapsed := st.auto_shoot_timer_.get env.now
    if st.auto_rapid_fire_state_ = RStep.kStep1 then
      ({ st with auto_shoot_timer_ := (((st.auto_shoot_timer_.stop env.now).reset env.now).start env.now), auto_rapid_fire_state_ := RStep.kStep2 }, [spin], false)
    else if st.auto_rapid_fire_state_ = RStep.kStep2 then
      if st.auto_shooter_spinup_time_ - elapsed ≤ 0 then
        let st := { st with auto_rapid_fire_state_ := RStep.kStep3,
                            auto_shoot_timer_ := st.auto_shoot_timer_.stop env.now }
        let r := rapidFireFeed st env RStep.kStep4
        (r.1, spin :: r.2, false)
      else (st, [spin], false)
    else if st.auto_rapid_fire_state_ = RStep.kStep3 then
      let r := rapidFireFeed st env RStep.kStep4
      (r.1, spin :: r.2, false)
    else if st.auto_rapid_fire_state_ = RStep.kStep4 then
      let r := rapidFirePistonWait st env elapsed RStep.kStep5 RStep.kStep6
      (r.1, spin :: r.2, false)
    else if st.auto_rapid_fire_state_ = RStep.kStep5 then
      (rapidFireSpindown st env elapsed RStep.kStep6, [spin], false)
    else if st.auto_rapid_fire_state_ = RStep.kStep6 then
      let r := rapidFireFeed st env RStep.kStep7
      (r.1, spin :: r.2, false)
    else if st.auto_rapid_fire_state_ = RStep.kStep7 then
      let r := rapidFirePistonWait st env elapsed RStep.kStep8 RStep.kStep9
      (r.1, spin :: r.2, false)
    else if st.auto_rapid_fire_state_ = RStep.kStep8 then
      (rapidFireSpindown st env elapsed RStep.kStep9, [spin], false)
    else if st.auto_rapid_fire_state_ = RStep.kStep9 then
      let r := rapidFireFeed st env RStep.kStep10
      (r.1, spin :: r.2, false)
    else if st.auto_rapid_fire_state_ = RStep.kStep10 then
      let r := rapidFirePistonWait st env elapsed RStep.kStep11 RStep.kStep12
      (r.1, spin :: r.2, false)
    else if st.auto_rapid_fire_state_ = RStep.kStep11 then
      (rapidFireSpindown st env elapsed RStep.kStep12, [spin], false)
    else if st.auto_rapid_fire_state_ = RStep.kStep12 then
      let r := rapidFireFeed st env RStep.kStep13
      (r.1, spin :: r.2, false)
    else if st.auto_rapid_fire_state_ = RStep.kStep13 then
      let r := rapidFirePistonWait st env elapsed RStep.kStep14 RStep.kStep15
      (r.1, spin :: r.2, false)
    else if st.auto_rapid_fire_state_ = RStep.kStep14 then
      (rapidFireSpindown st env elapsed RStep.kStep15, [spin], false)
    else if st.auto_rapid_fire_state_ = RStep.kStep15 then
      ({ st with auto_shoot_timer_ := (st.auto_shoot_timer_.stop env.now).reset env.now,
                 auto_rapid_fire_state_ := RStep.kFinished },
       [spin, SubsystemCall.shootCall 0], true)
    else
      ({ st with auto_rapid_fire_state_ := RStep.kFinished },
       [spin, SubsystemCall.shootCall 0], true)

/-- TechnoJays::AutoFeederHeight (part_004:1262-1294). -/
def autoFeederHeight (st : RobotState) : RobotState × List SubsystemCall × Bool :=
  if st.shooter_present = false then
    ({ st with auto_feeder_height_state_ := RStep.kFinished }, [], true)
  else if st.auto_feeder_height_state_ = RStep.kStep1 then
    let r := Shooter.setPitchAngle st.shooterCfg st.shooter st.auto_feeder_height_angle_ 1
    let call := SubsystemCall.setPitchAngleCall st.auto_feeder_height_angle_ 1
    if r.2 then ({ st with auto_feeder_height_state_ := RStep.kFinished }, [call], true)
    else (st, [call], false)
  else
    ({ st with auto_feeder_height_state_ := RStep.kFinished }, [], true)

/-- TechnoJays::AutoClimbingPrep (part_004:1301-1333). -/
def autoClimbingPrep (st : RobotState) : RobotState × List SubsystemCall × Bool :=
  if st.shooter_present = false then
    ({ st with auto_climbing_prep_state_ := RStep.kFinished }, [], true)
  else if st.auto_climbing_prep_state_ = RStep.kStep1 then
    let r := Shooter.setPitch st.shooterCfg st.shooter st.auto_climbing_encoder_count_ 1
    let call := SubsystemCall.setPitchCall st.auto_climbing_encoder_count_ 1
    if r.2 then ({ st with auto_climbing_prep_state_ := RStep.kFinished }, [call], true)
    else (st, [call], false)
  else
    ({ st with auto_climbing_prep_state_ := RStep.kFinished }, [], true)

/-- TechnoJays::AutoClimb (part_004:1526-1584).  While active it commands
the chassis backward at the configured creep speed on every call, before
its step switch runs. -/
def autoClimb (st : RobotState) (env : Env) : RobotState × List SubsystemCall × Bool :=
  if st.shooter_present = false ∨ st.climber_present = false ∨
      st.drive_present = false then
    ({ st with auto_climb_state_ := RStep.kFinished }, [], true)
  else
    let rd := DriveTrain.drive_manual st.driveCfg st.drive st.auto_climb_backup_speed_ 0 false
    let st := { st with drive := rd.1 }
    let backup := SubsystemCall.driveManualCall st.auto_climb_backup_speed_ 0 false
    if st.auto_climb_state_ = RStep.kStep1 then
      let r := Shooter.setPitch st.shooterCfg st.shooter
        st.auto_climb_headstart_encoder_count_ 1
      let st :=
        if r.2 then
          { st with auto_climb_pitch_finished_ := false,
                    auto_climb_winch_finished_ := false,
                    auto_climb_state_ := RStep.kStep2 }
        else st
      (st, [backup, SubsystemCall.setPitchCall st.auto_climb_headstart_encoder_count_ 1],
       false)
    else if st.auto_climb_state_ = RStep.kStep2 then
      let pitchPart :=
        if st.auto_climb_pitch_finished_ = false then
          let r := Shooter.setPitch st.shooterCfg st.shooter st.auto_climbing_encoder_count_ 1
          ((if r.2 then { st with auto_climb_pitch_finished_ := true } else st),
           [SubsystemCall.setPitchCall st.auto_climbing_encoder_count_ 1])
        else (st, [])
      let st := pitchPart.1
      let winchPart :=
        if st.auto_climb_winch_finished_ = false then
          let r := Climber.setTimed st.climberCfg st.climber st.auto_climb_winch_time_
            Direction.kDown st.auto_climb_winch_speed_ env.now
          let st := { st with climber := r.1 }
          ((if r.2.2 then { st with auto_climb_winch_finished_ := true } else st),
           [SubsystemCall.climberSetTimedCall st.auto_climb_winch_time_
             Direction.kDown st.auto_climb_winch_speed_])
        else (st, [])
      let st := winchPart.1
      let st :=
        if st.auto_climb_winch_finished_ ∧ st.auto_climb_pitch_finished_ then
          { st with auto_climb_state_ := RStep.kStep3 }
        else st
      (st, backup :: (pitchPart.2 ++ winchPart.2), false)
    else if st.auto_climb_state_ = RStep.kStep3 then
      let rd2 := DriveTrain.drive_manual st.driveCfg st.drive 0 0 false
      ({ st with auto_climb_state_ := RStep.kFinished, drive := rd2.1 },
       [backup, SubsystemCall.driveManualCall 0 0 false], true)
    else
      let rd2 := DriveTrain.drive_manual st.driveCfg st.drive 0 0 false
      ({ st with auto_climb_state_ := RStep.kFinished, drive := rd2.1 },
       [backup, SubsystemCall.driveManualCall 0 0 false], true)

/-- The command dispatch of TechnoJays::AutonomousPeriodic
(part_004:376-555), executed when the current command is neither "invalid"
nor "end": the sentinel validation, the per-command subsystem invocation,
and the completion flag. -/
def executeScriptCommand (st : RobotState) (env : Env) :
    RobotState × List SubsystemCall × Bool :=
  let c := st.current_command_
  if c.command = "wait" then
    if c.param1 = sentinel then (st, [], true)
    else
      let st :=
        if st.current_command_in_progress_ = false then
          { st with timer_ := (((st.timer_.stop env.now).reset env.now).start env.now), current_command_in_progress_ := true }
        else st
      let elapsed_time := st.timer_.get env.now
      let time_left := c.param1 - elapsed_time
      if time_left < 0 then ({ st with timer_ := st.timer_.stop env.now }, [], true)
      else (st, [], false)
  else if c.command = "adjustheading" then
    if c.param1 = sentinel ∨ c.param2 = sentinel then (st, [], true)
    else
      let r := DriveTrain.adjustHeading st.driveCfg st.drive c.param1 c.param2
      ({ st with drive := r.1 }, [SubsystemCall.adjustHeadingCall c.param1 c.param2], r.2.2)
  else if c.command = "drivedistance" then
    if c.param1 = sentinel ∨ c.param2 = sentinel then (st, [], true)
    else
      let r := DriveTrain.drive_distance st.driveCfg st.drive c.param1 c.param2
      (st, [SubsystemCall.driveDistanceCall c.param1 c.param2], r.2)
  else if c.command = "drivetime" then
    if c.param1 = sentinel ∨ c.param2 = sentinel ∨ c.param3 = sentinel then (st, [], true)
    else
      let st :=
        if st.current_command_in_progress_ = false then
          { st with drive := DriveTrain.resetAndStartTimer st.drive env.now, current_command_in_progress_ := true }
        else st
      let r := DriveTrain.drive_timed st.driveCfg st.drive c.param1 (directionOfRat c.param2) c.param3 env.now
      ({ st with drive := r.1 },
       [SubsystemCall.driveTimedCall c.param1 (directionOfRat c.param2) c.param3], r.2.2)
  else if c.command = "turnheading" then
    if c.param1 = sentinel ∨ c.param2 = sentinel then (st, [], true)
    else
      let r := DriveTrain.turn_heading st.driveCfg st.drive c.param1 c.param2
      (st, [SubsystemCall.turnHeadingCall c.param1 c.param2], r.2)
  else if c.command = "turntime" then
    if c.param1 = sentinel ∨ c.param2 = sentinel ∨ c.param3 = sentinel then (st, [], true)
    else
      let st :=
        if st.current_command_in_progress_ = false then
          { st with drive := DriveTrain.resetAndStartTimer st.drive env.now, current_command_in_progress_ := true }
        else st
      let r := DriveTrain.turn_timed st.driveCfg st.drive c.param1 (directionOfRat c.param2) c.param3 env.now
      ({ st with drive := r.1 },
       [SubsystemCall.turnTimedCall c.param1 (directionOfRat c.param2) c.param3], r.2.2)
  else if c.command = "pitchposition" then
    if c.param1 = sentinel ∨ c.param2 = sentinel then (st, [], true)
    else
      let r := Shooter.setPitch st.shooterCfg st.shooter (ratTrunc c.param1) c.param2
      (st, [SubsystemCall.setPitchCall (ratTrunc c.param1) c.param2], r.2)
  else if c.command = "pitchtime" then
    if c.param1 = sentinel ∨ c.param2 = sentinel ∨ c.param3 = sentinel then (st, [], true)
    else
      let st :=
        if st.current_command_in_progress_ = false then
          { st with shooter := Shooter.resetAndStartTimer st.shooter env.now, current_command_in_progress_ := true }
        else st
      let r := Shooter.setPitchTimed st.shooterCfg st.shooter c.param1 (directionOfRat c.param2) c.param3 env.now
      ({ st with shooter := r.1 },
       [SubsystemCall.setPitchTimedCall c.param1 (directionOfRat c.param2) c.param3], r.2.2)
  else if c.command = "pitchangle" then
    if c.param1 = sentinel ∨ c.param2 = sentinel then (st, [], true)
    else
      let r := Shooter.setPitchAngle st.shooterCfg st.shooter c.param1 c.param2
      (st, [SubsystemCall.setPitchAngleCall c.param1 c.param2], r.2)
  else if c.command = "shoot" then
    if c.param1 = sentinel then (st, [], true)
    else
      let st :=
        if st.current_command_in_progress_ = false then
          { st with auto_shoot_state_ := RStep.kStep1, current_command_in_progress_ := true }
        else st
      let r := autoShoot st env (ratTrunc c.param1)
      (r.1, r.2.1, r.2.2)
  else if c.command = "rapidfire" then
    let st :=
      if st.current_command_in_progress_ = false then
        { st with auto_rapid_fire_state_ := RStep.kStep1, current_command_in_progress_ := true }
      else st
    let r := autoRapidFire st env
    (r.1, r.2.1, r.2.2)
  else if c.command = "findtarget" then
    if c.param1 = sentinel then (st, [], true)
    else
      let st :=
        if st.current_command_in_progress_ = false then
          { st with auto_find_target_state_ := RStep.kStep1, current_command_in_progress_ := true }
        else st
      let r := autoFindTarget st env (targetHeightOfRat c.param1)
      (r.1, r.2.1, r.2.2)
  else
    (st, [], true)

/-- The motor-neutralizing block of AutonomousPeriodic (part_004:572-587),
run once the script is finished or absent. -/
def autonomousNeutral (st : RobotState) : RobotState × List SubsystemCall :=
  let drivePart :=
    if st.drive_present then
      let rd := DriveTrain.drive_manual st.driveCfg st.drive 0 0 false
      ({ st with drive := rd.1 }, [SubsystemCall.driveManualCall 0 0 false])
    else (st, [])
  let st := drivePart.1
  let tr2 := if st.climber_present then [SubsystemCall.climberMoveCall 0 false] else []
  let tr3 :=
    if st.shooter_present ∧ st.shooter.pitch_enabled_ then
      [SubsystemCall.movePitchCall 0 false]
    else []
  let tr4 :=
    if st.shooter_present ∧ st.shooter.shooter_enabled_ then
      [SubsystemCall.shootCall 0]
    else []
  (st, drivePart.2 ++ tr2 ++ tr3 ++ tr4)

/-- TechnoJays::AutonomousPeriodic (part_004:358-588): one tick of the
autonomous script interpreter. -/
def autonomousPeriodic (st : RobotState) (env : Env) : RobotState × List SubsystemCall :=
  let st := readSensorsPeriodic st env
  if st.script_defined ∧ st.current_command_.command ≠ "invalid" ∧
      st.current_command_.command ≠ "end" then
    let r := executeScriptCommand st env
    let st := r.1
    if r.2.2 then
      let nc := getNextCommand st.remaining_commands
      ({ st with current_command_in_progress_ := false, current_command_ := nc.1, remaining_commands := nc.2 },
       r.2.1)
    else (st, r.2.1)
  else
    autonomousNeutral st

/-- The leading blocks of the user-interface section of TeleopPeriodic
(part_004:728-825): turbo flags, the encoder-limit override request, and
the seven discrete routine-request buttons.  Shooter::IgnoreEncoderLimits
is declared and invoked but its definition is not among the sources; only
the requested flag is recorded, and nothing in the modelled Shooter reads
it. -/
def buttonsBase (st : RobotState) (env : Env) : RobotState :=
  let st := { st with driver_turbo_ := env.driver_right_bumper, scoring_turbo_ := env.scoring_right_bumper }
  { st with ignore_encoder_limits_requested_ := env.scoring_left_bumper ∧ st.shooter_present }

/-- The scoring right-trigger branch of TeleopPeriodic (part_004:737-744):
start AutoShoot, cancelling AutoRapidFire. -/
def buttonsShootStart (st : RobotState) (env : Env) : RobotState :=
  if env.scoring_right_trigger ∧ env.scoring_right_trigger_changed then
    { st with auto_rapid_fire_state_ := RStep.kFinished, auto_shoot_state_ := RStep.kStep1 }
  else st

/-- The scoring X-button branch: start AutoRapidFire, cancelling AutoShoot. -/
def buttonsRapidStart (st : RobotState) (env : Env) : RobotState :=
  if env.scoring_x ∧ env.scoring_x_changed then
    { st with auto_shoot_state_ := RStep.kFinished, auto_rapid_fire_state_ := RStep.kStep1 }
  else st

/-- The scoring B-button branch: start AutoFindTarget, cancelling the other
targeting and climbing routines. -/
def buttonsFindStart (st : RobotState) (env : Env) : RobotState :=
  if env.scoring_b ∧ env.scoring_b_changed then
    { st with auto_cycle_target_state_ := RStep.kFinished, auto_feeder_height_state_ := RStep.kFinished, auto_climbing_prep_state_ := RStep.kFinished, auto_climb_state_ := RStep.kFinished, auto_find_target_state_ := RStep.kStep1 }
  else st

/-- The scoring Y-button branch: start the cycle-target routine. -/
def buttonsCycleStart (st : RobotState) (env : Env) : RobotState :=
  if env.scoring_y ∧ env.scoring_y_changed then
    { st with auto_find_target_state_ := RStep.kFinished, auto_feeder_height_state_ := RStep.kFinished, auto_climbing_prep_state_ := RStep.kFinished, auto_climb_state_ := RStep.kFinished, auto_cycle_target_state_ := RStep.kStep1 }
  else st

/-- The scoring A-button branch: start AutoFeederHeight. -/
def buttonsFeederStart (st : RobotState) (env : Env) : RobotState :=
  if env.scoring_a ∧ env.scoring_a_changed then
    { st with auto_find_target_state_ := RStep.kFinished, auto_cycle_target_state_ := RStep.kFinished, auto_climbing_prep_state_ := RStep.kFinished, auto_climb_state_ := RStep.kFinished, auto_feeder_height_state_ := RStep.kStep1 }
  else st

/-- The scoring Start-button branch: start AutoClimbingPrep. -/
def buttonsPrepStart (st : RobotState) (env : Env) : RobotState :=
  if env.scoring_start ∧ env.scoring_start_changed then
    { st with auto_find_target_state_ := RStep.kFinished, auto_cycle_target_state_ := RStep.kFinished, auto_feeder_height_state_ := RStep.kFinished, auto_climb_state_ := RStep.kFinished, auto_climbing_prep_state_ := RStep.kStep1 }
  else st

/-- The scoring Back-button branch: start AutoClimb. -/
def buttonsClimbStart (st : RobotState) (env : Env) : RobotState :=
  if env.scoring_back ∧ env.scoring_back_changed then
    { st with auto_find_target_state_ := RStep.kFinished, auto_cycle_target_state_ := RStep.kFinished, auto_feeder_height_state_ := RStep.kFinished, auto_climbing_prep_state_ := RStep.kFinished, auto_climb_state_ := RStep.kStep1 }
  else st

def teleopButtonsBlock (st : RobotState) (env : Env) : RobotState :=
  buttonsClimbStart (buttonsPrepStart (buttonsFeederStart (buttonsCycleStart
    (buttonsFindStart (buttonsRapidStart (buttonsShootStart
      (buttonsBase st env) env) env) env) env) env) env) env

/-- The manual winch block of TeleopPeriodic (part_004:833-848). -/
def teleopManualWinch (st : RobotState) (env : Env) :
    RobotState × List (CmdSource × SubsystemCall) :=
  if env.scoring_right_y ≠ 0 then
    let st := { st with auto_find_target_state_ := RStep.kFinished, auto_cycle_target_state_ := RStep.kFinished, auto_climb_state_ := RStep.kFinished }
    if st.climber_present then
      (st, [(CmdSource.manual, SubsystemCall.climberMoveCall env.scoring_right_y st.scoring_turbo_)])
    else (st, [])
  else if st.auto_climb_state_ = RStep.kFinished then
    if st.climber_present then
      (st, [(CmdSource.manual, SubsystemCall.climberMoveCall 0 false)])
    else (st, [])
  else (st, [])

/-- The manual pitch block of TeleopPeriodic (part_004:850-870). -/
def teleopManualPitch (st : RobotState) (env : Env) :
    RobotState × List (CmdSource × SubsystemCall) :=
  if env.scoring_left_y ≠ 0 then
    let st := { st with auto_find_target_state_ := RStep.kFinished, auto_cycle_target_state_ := RStep.kFinished, auto_feeder_height_state_ := RStep.kFinished, auto_climbing_prep_state_ := RStep.kFinished, auto_climb_state_ := RStep.kFinished }
    if st.shooter_present then
      (st, [(CmdSource.manual, SubsystemCall.movePitchCall env.scoring_left_y st.scoring_turbo_)])
    else (st, [])
  else if st.auto_find_target_state_ = RStep.kFinished ∧
      st.auto_cycle_target_state_ = RStep.kFinished ∧
      st.auto_feeder_height_state_ = RStep.kFinished ∧
      st.auto_climbing_prep_state_ = RStep.kFinished ∧
      st.auto_climb_state_ = RStep.kFinished then
    if st.shooter_present then
      (st, [(CmdSource.manual, SubsystemCall.movePitchCall 0 false)])
    else (st, [])
  else (st, [])

/-- The manual shooter-wheel block of TeleopPeriodic (part_004:871-884). -/
def teleopManualShooter (st : RobotState) (env : Env) :
    RobotState × List (CmdSource × SubsystemCall) :=
  if env.scoring_left_trigger then
    let st := { st with auto_shoot_state_ := RStep.kFinished, auto_rapid_fire_state_ := RStep.kFinished }
    if st.shooter_present then
      (st, [(CmdSource.manual, SubsystemCall.shootCall 100)])
    else (st, [])
  else if st.auto_shoot_state_ = RStep.kFinished ∧
      st.auto_rapid_fire_state_ = RStep.kFinished then
    if st.shooter_present then
      (st, [(CmdSource.manual, SubsystemCall.shootCall 0)])
    else (st, [])
  else (st, [])

/-- The manual feeder block of TeleopPeriodic (part_004:886-900). -/
def teleopManualFeeder (st : RobotState) (env : Env) :
    RobotState × List (CmdSource × SubsystemCall) :=
  if env.scoring_dpad_y ≠ 0 ∧ st.previous_scoring_dpad_y_ ≠ env.scoring_dpad_y ∧
      env.scoring_left_trigger then
    let st := { st with auto_shoot_state_ := RStep.kFinished, auto_rapid_fire_state_ := RStep.kFinished }
    if st.feeder_present then
      (st, [(CmdSource.manual, SubsystemCall.feederPistonCall true)])
    else (st, [])
  else if st.auto_shoot_state_ = RStep.kFinished ∧
      st.auto_rapid_fire_state_ = RStep.kFinished then
    if st.feeder_present then
      (st, [(CmdSource.manual, SubsystemCall.feederPistonCall false)])
    else (st, [])
  else (st, [])

/-- The manual drive-train block of TeleopPeriodic (part_004:902-919). -/
def teleopManualDrive (st : RobotState) (env : Env) :
    RobotState × List (CmdSource × SubsystemCall) :=
  if env.driver_left_y ≠ 0 ∨ env.driver_right_y ≠ 0 then
    let st := { st with auto_find_target_state_ := RStep.kFinished, auto_cycle_target_state_ := RStep.kFinished, auto_climb_state_ := RStep.kFinished }
    if st.drive_present then
      (st, [(CmdSource.manual, SubsystemCall.tankDriveCall env.driver_left_y env.driver_right_y st.driver_turbo_)])
    else (st, [])
  else if st.auto_find_target_state_ = RStep.kFinished ∧
      st.auto_cycle_target_state_ = RStep.kFinished ∧
      st.auto_climb_state_ = RStep.kFinished then
    if st.drive_present then
      (st, [(CmdSource.manual, SubsystemCall.tankDriveCall 0 0 false)])
    else (st, [])
  else (st, [])

/-- The diagnostics and logging-toggle tail of TeleopPeriodic
(part_004:921-959): only the detailed-logging flag changes. -/
def teleopLoggingBlock (st : RobotState) (env : Env) : RobotState :=
  if env.driver_b ∧ env.driver_b_changed then
    { st with detailed_logging_enabled_ := !st.detailed_logging_enabled_ }
  else st

/-- The AutoRapidFire slot of the semi-autonomous routine section of
TeleopPeriodic (part_004:655-662).  Each slot runs while its routine state
is not Finished, appending its subsystem calls after those already
accumulated; teleopRoutinePhase chains the seven slots in source order. -/
def routineRapid (p : RobotState × List (CmdSource × SubsystemCall)) (env : Env) :
    RobotState × List (CmdSource × SubsystemCall) :=
  if p.1.auto_rapid_fire_state_ ≠ RStep.kFinished then
    let r := autoRapidFire p.1 env
    ((if r.2.2 then { r.1 with auto_rapid_fire_state_ := RStep.kFinished } else r.1),
     p.2 ++ r.2.1.map (fun c => (CmdSource.rapidFireRoutine, c)))
  else p

/-- The AutoShoot slot of the routine section (part_004:663-667). -/
def routineShoot (p : RobotState × List (CmdSource × SubsystemCall)) (env : Env) :
    RobotState × List (CmdSource × SubsystemCall) :=
  if p.1.auto_shoot_state_ ≠ RStep.kFinished then
    let r := autoShoot p.1 env 100
    ((if r.2.2 then { r.1 with auto_shoot_state_ := RStep.kFinished } else r.1),
     p.2 ++ r.2.1.map (fun c => (CmdSource.shootRoutine, c)))
  else p

/-- The AutoFindTarget slot of the routine section (part_004:668-672). -/
def routineFind (p : RobotState × List (CmdSource × SubsystemCall)) (env : Env) :
    RobotState × List (CmdSource × SubsystemCall) :=
  if p.1.auto_find_target_state_ ≠ RStep.kFinished then
    let r := autoFindTarget p.1 env TargetHeight.kHigh
    ((if r.2.2 then { r.1 with auto_find_target_state_ := RStep.kFinished } else r.1),
     p.2 ++ r.2.1.map (fun c => (CmdSource.findTargetRoutine, c)))
  else p

/-- The cycle-target slot of the routine section (part_004:673-686). -/
def routineCycle (p : RobotState × List (CmdSource × SubsystemCall)) (env : Env) :
    RobotState × List (CmdSource × SubsystemCall) :=
  if p.1.auto_cycle_target_state_ ≠ RStep.kFinished then
    if p.1.auto_cycle_target_state_ = RStep.kStep1 then
      let st2 := nextTarget p.1
      ({ st2 with auto_cycle_target_state_ := RStep.kStep2, aim_state_ := RStep.kStep1 }, p.2)
    else if p.1.auto_cycle_target_state_ = RStep.kStep2 then
      let r := aimAtTarget p.1 env
      ((if r.2.2 then { r.1 with auto_cycle_target_state_ := RStep.kFinished, aim_state_ := RStep.kFinished } else r.1),
       p.2 ++ r.2.1.map (fun c => (CmdSource.cycleTargetRoutine, c)))
    else ({ p.1 with auto_cycle_target_state_ := RStep.kFinished }, p.2)
  else p

/-- The AutoFeederHeight slot of the routine section (part_004:687-691). -/
def routineFeederHeight (p : RobotState × List (CmdSource × SubsystemCall)) :
    RobotState × List (CmdSource × SubsystemCall) :=
  if p.1.auto_feeder_height_state_ ≠ RStep.kFinished then
    let r := autoFeederHeight p.1
    ((if r.2.2 then { r.1 with auto_feeder_height_state_ := RStep.kFinished } else r.1),
     p.2 ++ r.2.1.map (fun c => (CmdSource.feederHeightRoutine, c)))
  else p

/-- The AutoClimbingPrep slot of the routine section (part_004:692-696). -/
def routinePrep (p : RobotState × List (CmdSource × SubsystemCall)) :
    RobotState × List (CmdSource × SubsystemCall) :=
  if p.1.auto_climbing_prep_state_ ≠ RStep.kFinished then
    let r := autoClimbingPrep p.1
    ((if r.2.2 then { r.1 with auto_climbing_prep_state_ := RStep.kFinished } else r.1),
     p.2 ++ r.2.1.map (fun c => (CmdSource.climbingPrepRoutine, c)))
  else p

/-- The AutoClimb slot of the routine section (part_004:697 area). -/
def routineClimb (p : RobotState × List (CmdSource × SubsystemCall)) (env : Env) :
    RobotState × List (CmdSource × SubsystemCall) :=
  if p.1.auto_climb_state_ ≠ RStep.kFinished then
    let r := autoClimb p.1 env
    ((if r.2.2 then { r.1 with auto_climb_state_ := RStep.kFinished } else r.1),
     p.2 ++ r.2.1.map (fun c => (CmdSource.climbRoutine, c)))
  else p

def teleopRoutinePhase (st : RobotState) (env : Env) :
    RobotState × List (CmdSource × SubsystemCall) :=
  routineClimb (routinePrep (routineFeederHeight (routineCycle (routineFind
    (routineShoot (routineRapid (st, []) env) env) env) env))) env

/-- The user-interface section of TeleopPeriodic (part_004:699-960). -/
def teleopUiPhase (st : RobotState) (env : Env) :
    RobotState × List (CmdSource × SubsystemCall) :=
  if st.user_interface_present = false then (st, [])
  else
    let st := teleopButtonsBlock st env
    let winch := teleopManualWinch st env
    let pitch := teleopManualPitch winch.1 env
    let wheel := teleopManualShooter pitch.1 env
    let feed := teleopManualFeeder wheel.1 env
    let drv := teleopManualDrive feed.1 env
    let st := teleopLoggingBlock drv.1 env
    (st, winch.2 ++ pitch.2 ++ wheel.2 ++ feed.2 ++ drv.2)

/-- TechnoJays::TeleopPeriodic (part_004:636-961): one Teleop tick, with
every subsystem call tagged by its logical source. -/
def teleopPeriodic (st : RobotState) (env : Env) :
    RobotState × List (CmdSource × SubsystemCall) :=
  let st := readSensorsPeriodic st env
  let routine := teleopRoutinePhase st env
  let ui := teleopUiPhase routine.1 env
  (ui.1, routine.2 ++ ui.2)

end TechnoJays

/-! ## Concrete fixtures used by witnesses and counterexamples -/

/-- A representative drive-train configuration: completion threshold 10,
tier breakpoints 50/100, tier ratios 0.3/0.6/1.0. -/
def dtCfgA : DriveTrainConfig :=
  { normal_linear_speed_ratio_ := 1
    turbo_linear_speed_ratio_ := 2
    normal_turning_speed_ratio_ := 1
    turbo_turning_speed_ratio_ := 2
    auto_far_linear_speed_ratio_ := 1
    auto_medium_linear_speed_ratio_ := 6/10
    auto_near_linear_speed_ratio_ := 3/10
    auto_far_turning_speed_ratio_ := 1
    auto_medium_turning_speed_ratio_ := 6/10
    auto_near_turning_speed_ratio_ := 3/10
    forward_direction_ := 1
    backward_direction_ := -1
    left_direction_ := -1
    right_direction_ := 1
    distance_threshold_ := 10
    auto_medium_distance_threshold_ := 50
    auto_far_distance_threshold_ := 100
    heading_threshold_ := 5
    auto_medium_heading_threshold_ := 30
    auto_far_heading_threshold_ := 60
    time_threshold_ := 1/10
    auto_medium_time_threshold_ := 1
    auto_far_time_threshold_ := 2
    maximum_linear_speed_change_ := 10
    maximum_turn_speed_change_ := 10 }

/-- A healthy drive-train state at rest. -/
def dtStA : DriveTrainState :=
  { robot_drive_present := true
    accelerometer_enabled_ := true
    gyro_enabled_ := true
    gyro_angle_ := 0
    acceleration_ := 0
    distance_traveled_ := 0
    adjustment_in_progress_ := false
    initial_heading_ := 0
    previous_linear_speed_ := 0
    previous_turn_speed_ := 0
    timer_ := ⟨false, 0, 0⟩ }

/-- A representative shooter configuration with the encoder limits
disabled (0 disables a bound in the source). -/
def sCfgA : ShooterConfig :=
  { encoder_threshold_ := 10
    auto_medium_encoder_threshold_ := 50
    auto_far_encoder_threshold_ := 100
    encoder_max_limit_ := 0
    encoder_min_limit_ := 0
    pitch_up_direction_ := 1
    pitch_down_direction_ := -1
    auto_far_speed_ratio_ := 1
    auto_medium_speed_ratio_ := 6/10
    auto_near_speed_ratio_ := 3/10
    time_threshold_ := 1/10
    auto_medium_time_threshold_ := 1
    auto_far_time_threshold_ := 2
    angle_linear_fit_gradient_ := 10
    angle_linear_fit_constant_ := 0
    invert_multiplier_ := 1
    pitch_turbo_speed_ratio_ := 1
    pitch_normal_speed_ratio_ := 1
    shooter_power_adjustment_ratio_ := 1/100
    shooter_min_power_speed_ := 0
    shooter_normal_speed_ratio_ := 1 }

/-- A healthy shooter state. -/
def sStA : ShooterState :=
  { encoder_enabled_ := true
    pitch_enabled_ := true
    shooter_enabled_ := true
    encoder_count_ := 0
    timer_ := ⟨false, 0, 0⟩ }

/-- A representative climber configuration with the encoder limits
disabled. -/
def cCfgA : ClimberConfig :=
  { encoder_threshold_ := 10
    auto_medium_encoder_threshold_ := 50
    auto_far_encoder_threshold_ := 100
    encoder_max_limit_ := 0
    encoder_min_limit_ := 0
    up_direction_ := 1
    down_direction_ := -1
    auto_far_speed_ratio_ := 1
    auto_medium_speed_ratio_ := 6/10
    auto_near_speed_ratio_ := 3/10
    time_threshold_ := 1/10
    auto_medium_time_threshold_ := 1
    auto_far_time_threshold_ := 2
    invert_multiplier_ := 1
    turbo_up_speed_ratio_ := 1
    turbo_down_speed_ratio_ := 1
    normal_up_speed_ratio_ := 1
    normal_down_speed_ratio_ := 1 }

/-- A healthy climber state. -/
def cStA : ClimberState :=
  { encoder_enabled_ := true
    climber_enabled_ := true
    encoder_count_ := 0
    timer_ := ⟨false, 0, 0⟩ }

/-! ## C9: disabled sensor or actuator makes motion calls fail-safe -/

/-- C9: a position-based motion call on a subsystem whose required sensor
or actuator is disabled returns reached=true immediately and issues no
motor write; the functions are pure in their state, so this holds on every
tick the configuration stays disabled. -/
theorem c9_disabled_motion_is_noop (dcfg : DriveTrainConfig) (dst : DriveTrainState)
    (len dspeed : ℚ) (scfg : ShooterConfig) (sst : ShooterState)
    (count : ℤ) (sspeed : ℚ)
    (hd : dst.robot_drive_present = false ∨ dst.accelerometer_enabled_ = false)
    (hs : sst.encoder_enabled_ = false ∨ sst.pitch_enabled_ = false) :
    DriveTrain.drive_distance dcfg dst len dspeed = (none, true) ∧
    Shooter.setPitch scfg sst count sspeed = (none, true) := by
  constructor
  · unfold DriveTrain.drive_distance
    rcases hd with h | h <;> simp [h]
  · unfold Shooter.setPitch
    rcases hs with h | h <;> simp [h]

/-- Witness for C9 at a concrete disabled drive train and a concrete
disabled shooter. -/
theorem c9_witness :
    DriveTrain.drive_distance dtCfgA { dtStA with accelerometer_enabled_ := false } 100 1 = (none, true) ∧
    Shooter.setPitch sCfgA { sStA with pitch_enabled_ := false } 100 1 = (none, true) :=
  c9_disabled_motion_is_noop dtCfgA { dtStA with accelerometer_enabled_ := false } 100 1
    sCfgA { sStA with pitch_enabled_ := false } 100 1
    (Or.inr rfl) (Or.inr rfl)

/-! ## C3: completion-threshold behavior of the position-based motions -/

/-- C3 counterexample: for the drive-distance motion the source uses a
strict comparison (`distance_left < distance_threshold_`,
drivetrain.cpp:524), so at an absolute error exactly equal to the
configured threshold (error 10, threshold 10) the call does not command
zero and does not report reached, contradicting the claimed "less than or
equal". -/
theorem c3_counterexample :
    |(10 : ℚ) - dtStA.distance_traveled_| ≤ dtCfgA.distance_threshold_ ∧
    DriveTrain.drive_distance dtCfgA dtStA 10 1 = (some (3/10, 0), false) := by
  constructor
  · norm_num [dtStA, dtCfgA]
  · norm_num [DriveTrain.drive_distance, dtStA, dtCfgA]

/-- C3 amended: the pitch (Shooter::SetPitch) and winch (Climber::Set)
position motions stop with reached=true whenever the absolute error is ≤
the threshold (and no boundary abort pre-empts), while the drive-distance
motion requires the remaining distance to be strictly below its threshold;
in Scenario B (current 995, target 1000, threshold 10) all three command
zero and report reached=true. -/
theorem c3_amended
    (scfg : ShooterConfig) (sst : ShooterState) (starget : ℤ) (s1 : ℚ)
    (ccfg : ClimberConfig) (cst : ClimberState) (ctarget : ℤ) (s2 : ℚ)
    (dcfg : DriveTrainConfig) (dst : DriveTrainState) (len s3 : ℚ)
    (hse : sst.encoder_enabled_ = true) (hsp : sst.pitch_enabled_ = true)
    (hsmax : ¬(scfg.encoder_max_limit_ > 0 ∧ starget > sst.encoder_count_ ∧
      sst.encoder_count_ > scfg.encoder_max_limit_))
    (hsmin : ¬(scfg.encoder_min_limit_ > 0 ∧ starget < sst.encoder_count_ ∧
      sst.encoder_count_ < scfg.encoder_min_limit_))
    (hserr : |starget - sst.encoder_count_| ≤ scfg.encoder_threshold_)
    (hce : cst.encoder_enabled_ = true) (hcc : cst.climber_enabled_ = true)
    (hcmax : ¬(ccfg.encoder_max_limit_ > 0 ∧ ctarget > cst.encoder_count_ ∧
      cst.encoder_count_ > ccfg.encoder_max_limit_))
    (hcmin : ¬(ccfg.encoder_min_limit_ > 0 ∧ ctarget < cst.encoder_count_ ∧
      cst.encoder_count_ < ccfg.encoder_min_limit_))
    (hcerr : |ctarget - cst.encoder_count_| ≤ ccfg.encoder_threshold_)
    (hdp : dst.robot_drive_present = true) (hda : dst.accelerometer_enabled_ = true)
    (hderr : |len| - |dst.distance_traveled_| < dcfg.distance_threshold_) :
    Shooter.setPitch scfg sst starget s1 = (some 0, true) ∧
    Climber.set ccfg cst ctarget s2 = (some 0, true) ∧
    DriveTrain.drive_distance dcfg dst len s3 = (some (0, 0), true) ∧
    Shooter.setPitch sCfgA { sStA with encoder_count_ := 995 } 1000 1 = (some 0, true) ∧
    Climber.set cCfgA { cStA with encoder_count_ := 995 } 1000 1 = (some 0, true) ∧
    DriveTrain.drive_distance dtCfgA { dtStA with distance_traveled_ := 995 } 1000 1 =
      (some (0, 0), true) := by
  refine ⟨?_, ?_, ?_, by norm_num [Shooter.setPitch, sCfgA, sStA],
    by norm_num [Climber.set, cCfgA, cStA],
    by norm_num [DriveTrain.drive_distance, dtCfgA, dtStA]⟩
  · unfold Shooter.setPitch
    simp only [hse, hsp]
    rw [if_neg (by simp), if_neg hsmax, if_neg hsmin, if_pos hserr]
  · unfold Climber.set
    simp only [hce, hcc]
    rw [if_neg (by simp), if_neg hcmax, if_neg hcmin, if_pos hcerr]
  · unfold DriveTrain.drive_distance
    simp only [hdp, hda]
    rw [if_neg (by simp), if_pos hderr]

/-- Witness for C3 amended at the Scenario B inputs. -/
theorem c3_witness :
    Shooter.setPitch sCfgA { sStA with encoder_count_ := 995 } 1000 1 = (some 0, true) ∧
    Climber.set cCfgA { cStA with encoder_count_ := 995 } 1000 1 = (some 0, true) ∧
    DriveTrain.drive_distance dtCfgA { dtStA with distance_traveled_ := 995 } 1000 1 =
      (some (0, 0), true) := by
  have h := c3_amended sCfgA { sStA with encoder_count_ := 995 } 1000 1
    cCfgA { cStA with encoder_count_ := 995 } 1000 1
    dtCfgA { dtStA with distance_traveled_ := 995 } 1000 1
    rfl rfl (by decide) (by decide) (by decide)
    rfl rfl (by decide) (by decide) (by decide)
    rfl rfl (by norm_num [dtCfgA, dtStA])
  exact ⟨h.1, h.2.1, h.2.2.1⟩

/-! ## C4: boundary-limit aborts of the position-based motions -/

/-- Shooter configuration with the max encoder bound enabled at 1000. -/
def sCfgLim : ShooterConfig := { sCfgA with encoder_max_limit_ := 1000 }

/-- Shooter state whose encoder has crossed that max bound. -/
def sStHigh : ShooterState := { sStA with encoder_count_ := 1500 }

/-- C4 counterexample: when the pitch encoder has crossed the enabled max
limit and the requested motion is toward it, Shooter::SetPitch returns
reached=true but issues no motor write at all (part_004:2382-2385 is a
bare `return true`), so the claim that the call "commands zero to the
motor" is false at this input. -/
theorem c4_counterexample :
    sCfgLim.encoder_max_limit_ > 0 ∧ (2000 : ℤ) > sStHigh.encoder_count_ ∧
    sStHigh.encoder_count_ > sCfgLim.encoder_max_limit_ ∧
    Shooter.setPitch sCfgLim sStHigh 2000 1 = (none, true) := by
  refine ⟨by decide, by decide, by decide, ?_⟩
  norm_num [Shooter.setPitch, sCfgLim, sStHigh, sCfgA, sStA]

/-- C4 amended: when a configured setpoint bound is enabled, the requested
motion heads toward it, and the current encoder value has already crossed
it, the call aborts immediately with reached=true and does not pursue the
setpoint; Climber::Set additionally writes an explicit zero to the winch
motor, while Shooter::SetPitch returns without any motor write. -/
theorem c4_amended
    (scfg : ShooterConfig) (sst : ShooterState) (starget : ℤ) (s1 : ℚ)
    (tcfg : ShooterConfig) (tst : ShooterState) (ttarget : ℤ) (s2 : ℚ)
    (ccfg : ClimberConfig) (cst : ClimberState) (ctarget : ℤ) (s3 : ℚ)
    (dcfg : ClimberConfig) (dst : ClimberState) (dtarget : ℤ) (s4 : ℚ)
    (hse : sst.encoder_enabled_ = true) (hsp : sst.pitch_enabled_ = true)
    (hsmax : scfg.encoder_max_limit_ > 0) (hsdir : starget > sst.encoder_count_)
    (hscross : sst.encoder_count_ > scfg.encoder_max_limit_)
    (hte : tst.encoder_enabled_ = true) (htp : tst.pitch_enabled_ = true)
    (htmax : ¬(tcfg.encoder_max_limit_ > 0 ∧ ttarget > tst.encoder_count_ ∧
      tst.encoder_count_ > tcfg.encoder_max_limit_))
    (htmin : tcfg.encoder_min_limit_ > 0) (htdir : ttarget < tst.encoder_count_)
    (htcross : tst.encoder_count_ < tcfg.encoder_min_limit_)
    (hce : cst.encoder_enabled_ = true) (hcc : cst.climber_enabled_ = true)
    (hcmax : ccfg.encoder_max_limit_ > 0) (hcdir : ctarget > cst.encoder_count_)
    (hccross : cst.encoder_count_ > ccfg.encoder_max_limit_)
    (hde : dst.encoder_enabled_ = true) (hdc : dst.climber_enabled_ = true)
    (hdmax : ¬(dcfg.encoder_max_limit_ > 0 ∧ dtarget > dst.encoder_count_ ∧
      dst.encoder_count_ > dcfg.encoder_max_limit_))
    (hdmin : dcfg.encoder_min_limit_ > 0) (hddir : dtarget < dst.encoder_count_)
    (hdcross : dst.encoder_count_ < dcfg.encoder_min_limit_) :
    Shooter.setPitch scfg sst starget s1 = (none, true) ∧
    Shooter.setPitch tcfg tst ttarget s2 = (none, true) ∧
    Climber.set ccfg cst ctarget s3 = (some 0, true) ∧
    Climber.set dcfg dst dtarget s4 = (some 0, true) := by
  refine ⟨?_, ?_, ?_, ?_⟩
  · unfold Shooter.setPitch
    simp only [hse, hsp]
    rw [if_neg (by simp), if_pos ⟨hsmax, hsdir, hscross⟩]
  · unfold Shooter.setPitch
    simp only [hte, htp]
    rw [if_neg (by simp), if_neg htmax, if_pos ⟨htmin, htdir, htcross⟩]
  · unfold Climber.set
    simp only [hce, hcc]
    rw [if_neg (by simp), if_pos ⟨hcmax, hcdir, hccross⟩]
  · unfold Climber.set
    simp only [hde, hdc]
    rw [if_neg (by simp), if_neg hdmax, if_pos ⟨hdmin, hddir, hdcross⟩]

/-- Witness for C4 amended: max-bound abort of the pitch and the winch and
min-bound abort of both, at concrete crossed states. -/
theorem c4_witness :
    Shooter.setPitch { sCfgA with encoder_max_limit_ := 1000 }
      { sStA with encoder_count_ := 1500 } 2000 1 = (none, true) ∧
    Shooter.setPitch { sCfgA with encoder_min_limit_ := 100 }
      { sStA with encoder_count_ := 50 } 0 1 = (none, true) ∧
    Climber.set { cCfgA with encoder_max_limit_ := 1000 }
      { cStA with encoder_count_ := 1500 } 2000 1 = (some 0, true) ∧
    Climber.set { cCfgA with encoder_min_limit_ := 100 }
      { cStA with encoder_count_ := 50 } 0 1 = (some 0, true) := by
  exact c4_amended
    { sCfgA with encoder_max_limit_ := 1000 } { sStA with encoder_count_ := 1500 } 2000 1
    { sCfgA with encoder_min_limit_ := 100 } { sStA with encoder_count_ := 50 } 0 1
    { cCfgA with encoder_max_limit_ := 1000 } { cStA with encoder_count_ := 1500 } 2000 1
    { cCfgA with encoder_min_limit_ := 100 } { cStA with encoder_count_ := 50 } 0 1
    rfl rfl (by decide) (by decide) (by decide)
    rfl rfl (by decide) (by decide) (by decide) (by decide)
    rfl rfl (by decide) (by decide) (by decide)
    rfl rfl (by decide) (by decide) (by decide) (by decide)

/-! ## C6: tier monotonicity of the drive-distance motion -/

/-- The magnitude of the linear motor command issued by a drive-distance
call (0 when no write was issued). -/
def driveCmdMag (r : Option (ℚ × ℚ) × Bool) : ℚ :=
  match r.1 with
  | none => 0
  | some p => |p.1|

/-- Configuration whose tier speed-ratio table is out of order
(near 1, medium 0.6, far 0.1), as nothing at load time forbids. -/
def c6Cfg : DriveTrainConfig :=
  { dtCfgA with distance_threshold_ := 1, auto_near_linear_speed_ratio_ := 1,
                auto_medium_linear_speed_ratio_ := 6/10, auto_far_linear_speed_ratio_ := 1/10 }

/-- C6 counterexample: under an out-of-order ratio table the claim fails:
errors 20 < 200 of the same sign give commanded magnitudes 1 and 1/10, so
the magnitude for the larger error is smaller.  Nothing validates the
table at configuration load (the spec itself flags this). -/
theorem c6_counterexample :
    |(1000 : ℚ)| - |(980 : ℚ)| < |(1000 : ℚ)| - |(800 : ℚ)| ∧
    (0 : ℚ) < |(1000 : ℚ)| - |(980 : ℚ)| ∧
    DriveTrain.drive_distance c6Cfg { dtStA with distance_traveled_ := 980 } 1000 1 =
      (some (1, 0), false) ∧
    DriveTrain.drive_distance c6Cfg { dtStA with distance_traveled_ := 800 } 1000 1 =
      (some (1/10, 0), false) ∧
    ¬(|(1 : ℚ)| ≤ |(1 : ℚ)/10|) := by
  refine ⟨by norm_num, by norm_num, ?_, ?_,
    by rw [abs_one, abs_of_nonneg (by norm_num : (0:ℚ) ≤ 1/10)]; norm_num⟩
  · norm_num [DriveTrain.drive_distance, c6Cfg, dtCfgA, dtStA]
  · norm_num [DriveTrain.drive_distance, c6Cfg, dtCfgA, dtStA]

/-- C6 amended: provided the configured tier speed ratios are ordered
0 ≤ near ≤ medium ≤ far and the requested speed is nonnegative, the
commanded magnitude of the drive-distance motion is monotone in the
remaining error: for errors e1 < e2 under the same configuration, the
magnitude produced for e2 is ≥ the magnitude produced for e1. -/
theorem c6_amended (cfg : DriveTrainConfig) (st1 st2 : DriveTrainState)
    (len speed : ℚ)
    (hp1 : st1.robot_drive_present = true) (ha1 : st1.accelerometer_enabled_ = true)
    (hp2 : st2.robot_drive_present = true) (ha2 : st2.accelerometer_enabled_ = true)
    (h0 : 0 ≤ cfg.auto_near_linear_speed_ratio_)
    (h1 : cfg.auto_near_linear_speed_ratio_ ≤ cfg.auto_medium_linear_speed_ratio_)
    (h2 : cfg.auto_medium_linear_speed_ratio_ ≤ cfg.auto_far_linear_speed_ratio_)
    (_hs : 0 ≤ speed)
    (he : |len| - |st1.distance_traveled_| < |len| - |st2.distance_traveled_|) :
    driveCmdMag (DriveTrain.drive_distance cfg st1 len speed) ≤
      driveCmdMag (DriveTrain.drive_distance cfg st2 len speed) := by
  have hm : 0 ≤ cfg.auto_medium_linear_speed_ratio_ := le_trans h0 h1
  have hf : 0 ≤ cfg.auto_far_linear_speed_ratio_ := le_trans hm h2
  have closed : ∀ st : DriveTrainState, st.robot_drive_present = true →
      st.accelerometer_enabled_ = true →
      DriveTrain.drive_distance cfg st len speed =
        (if |len| - |st.distance_traveled_| < cfg.distance_threshold_ then
          (some ((0 : ℚ), (0 : ℚ)), true)
        else
          (some ((if |len| - |st.distance_traveled_| > cfg.auto_far_distance_threshold_ then
              (if len > 0 then cfg.forward_direction_ else cfg.backward_direction_) * speed *
                cfg.auto_far_linear_speed_ratio_
            else if |len| - |st.distance_traveled_| > cfg.auto_medium_distance_threshold_ then
              (if len > 0 then cfg.forward_direction_ else cfg.backward_direction_) * speed *
                cfg.auto_medium_linear_speed_ratio_
            else
              (if len > 0 then cfg.forward_direction_ else cfg.backward_direction_) * speed *
                cfg.auto_near_linear_speed_ratio_), (0 : ℚ)), false)) := by
    intro st hp ha
    unfold DriveTrain.drive_distance
    rw [if_neg (by simp [hp, ha])]
  have key : ∀ r1 r2 : ℚ, 0 ≤ r1 → r1 ≤ r2 →
      |(if len > 0 then cfg.forward_direction_ else cfg.backward_direction_) * speed * r1| ≤
      |(if len > 0 then cfg.forward_direction_ else cfg.backward_direction_) * speed * r2| := by
    intro r1 r2 hr1 hr12
    have habs : |r1| ≤ |r2| := by
      rw [abs_of_nonneg hr1, abs_of_nonneg (le_trans hr1 hr12)]
      exact hr12
    calc |(if len > 0 then cfg.forward_direction_ else cfg.backward_direction_) * speed * r1|
        = |(if len > 0 then cfg.forward_direction_ else cfg.backward_direction_) * speed| * |r1| :=
          abs_mul _ _
      _ ≤ |(if len > 0 then cfg.forward_direction_ else cfg.backward_direction_) * speed| * |r2| :=
          mul_le_mul_of_nonneg_left habs (abs_nonneg _)
      _ = |(if len > 0 then cfg.forward_direction_ else cfg.backward_direction_) * speed * r2| :=
          (abs_mul _ _).symm
  rw [closed st1 hp1 ha1, closed st2 hp2 ha2]
  by_cases hc1 : |len| - |st1.distance_traveled_| < cfg.distance_threshold_
  · rw [if_pos hc1]
    by_cases hc2 : |len| - |st2.distance_traveled_| < cfg.distance_threshold_
    · rw [if_pos hc2]
    · rw [if_neg hc2]
      simp only [driveCmdMag]
      exact le_trans (le_of_eq abs_zero) (abs_nonneg _)
  · rw [if_neg hc1]
    have hc2 : ¬ |len| - |st2.distance_traveled_| < cfg.distance_threshold_ :=
      fun h => hc1 (lt_trans he h)
    rw [if_neg hc2]
    simp only [driveCmdMag]
    by_cases hf1 : |len| - |st1.distance_traveled_| > cfg.auto_far_distance_threshold_
    · have hf2 : |len| - |st2.distance_traveled_| > cfg.auto_far_distance_threshold_ :=
        lt_trans hf1 he
      rw [if_pos hf1, if_pos hf2]
    · rw [if_neg hf1]
      by_cases hm1 : |len| - |st1.distance_traveled_| > cfg.auto_medium_distance_threshold_
      · rw [if_pos hm1]
        by_cases hf2 : |len| - |st2.distance_traveled_| > cfg.auto_far_distance_threshold_
        · rw [if_pos hf2]
          exact key _ _ hm h2
        · rw [if_neg hf2]
          have hm2 : |len| - |st2.distance_traveled_| > cfg.auto_medium_distance_threshold_ :=
            lt_trans hm1 he
          rw [if_pos hm2]
      · rw [if_neg hm1]
        by_cases hf2 : |len| - |st2.distance_traveled_| > cfg.auto_far_distance_threshold_
        · rw [if_pos hf2]
          exact key _ _ h0 (le_trans h1 h2)
        · rw [if_neg hf2]
          by_cases hm2 : |len| - |st2.distance_traveled_| > cfg.auto_medium_distance_threshold_
          · rw [if_pos hm2]
            exact key _ _ h0 h1
          · rw [if_neg hm2]

/-- Witness for C6 amended: under the in-order table of dtCfgA
(0.3/0.6/1.0), errors 20 < 200 give magnitudes 3/10 ≤ 1. -/
theorem c6_witness :
    driveCmdMag (DriveTrain.drive_distance dtCfgA { dtStA with distance_traveled_ := 980 } 1000 1) ≤
      driveCmdMag (DriveTrain.drive_distance dtCfgA { dtStA with distance_traveled_ := 800 } 1000 1) :=
  c6_amended dtCfgA { dtStA with distance_traveled_ := 980 }
    { dtStA with distance_traveled_ := 800 } 1000 1
    rfl rfl rfl rfl (by norm_num [dtCfgA]) (by norm_num [dtCfgA]) (by norm_num [dtCfgA])
    (by norm_num) (by norm_num [dtStA])

/-! ## C8: target height classification -/

/-- C8: a detection whose aspect ratio differs from the calibrated
high-profile ratio by less than the match threshold classifies as High and
returns exactly the high-profile physical height; a detection matching
none of the three profiles classifies as Unknown. -/
theorem c8_height_classification (cfg : TargetingConfig) (t : ParticleReport) :
    (|Targeting.rectangleRatio t - cfg.target_rectangle_ratio_high_| <
        cfg.target_rectangle_ratio_threshold_ →
      Targeting.getCameraHeightOfTarget cfg t = Targeting.highPhysicalHeight ∧
      Targeting.getEnumHeightOfTarget cfg t = TargetHeight.kHigh) ∧
    (¬(|Targeting.rectangleRatio t - cfg.target_rectangle_ratio_high_| <
        cfg.target_rectangle_ratio_threshold_) →
     ¬(|Targeting.rectangleRatio t - cfg.target_rectangle_ratio_medium_| <
        cfg.target_rectangle_ratio_threshold_) →
     ¬(|Targeting.rectangleRatio t - cfg.target_rectangle_ratio_low_| <
        cfg.target_rectangle_ratio_threshold_) →
      Targeting.getEnumHeightOfTarget cfg t = TargetHeight.kUnknown) := by
  constructor
  · intro h
    have hh : Targeting.getCameraHeightOfTarget cfg t = Targeting.highPhysicalHeight := by
      unfold Targeting.getCameraHeightOfTarget
      rw [if_pos h]
    refine ⟨hh, ?_⟩
    simp [Targeting.getEnumHeightOfTarget, hh]
  · intro h1 h2 h3
    have hh : Targeting.getCameraHeightOfTarget cfg t = 0 := by
      unfold Targeting.getCameraHeightOfTarget
      rw [if_neg h1, if_neg h2, if_neg h3]
    simp only [Targeting.getEnumHeightOfTarget, hh]
    norm_num [Targeting.highPhysicalHeight, Targeting.mediumPhysicalHeight,
      Targeting.lowPhysicalHeight]

/-- Targeting configuration of Scenario C: high-profile ratio 3.1, match
threshold 0.4. -/
def tgtCfgC : TargetingConfig :=
  { camera_view_angle_ := 435/10
    angle_of_target_horiztonal_offset_ := 0
    target_rectangle_ratio_high_ := 31/10
    target_rectangle_ratio_medium_ := 23/10
    target_rectangle_ratio_low_ := 16/10
    target_rectangle_ratio_threshold_ := 4/10
    target_rectangle_ratio_minimum_ := 1
    target_rectangle_ratio_maximum_ := 4
    target_rectangle_score_threshold_ := 50 }

/-- A detection with bounding box 31 × 10, hence aspect ratio exactly 3.1. -/
def tgt31 : ParticleReport := ⟨31, 10, 100, 100, 310, 320, 240⟩

/-- A detection with bounding box 99 × 1, aspect ratio 99, matching no
profile. -/
def tgt99 : ParticleReport := ⟨99, 1, 100, 100, 99, 320, 240⟩

/-- Witness for C8 at Scenario C (ratio 3.1 against high profile 3.1,
threshold 0.4) and at an unmatched ratio. -/
theorem c8_witness :
    (Targeting.getCameraHeightOfTarget tgtCfgC tgt31 = Targeting.highPhysicalHeight ∧
     Targeting.getEnumHeightOfTarget tgtCfgC tgt31 = TargetHeight.kHigh) ∧
    Targeting.getEnumHeightOfTarget tgtCfgC tgt99 = TargetHeight.kUnknown := by
  constructor
  · exact (c8_height_classification tgtCfgC tgt31).1
      (by norm_num [Targeting.rectangleRatio, tgtCfgC, tgt31, abs_sub_lt_iff])
  · exact (c8_height_classification tgtCfgC tgt99).2
      (by norm_num [Targeting.rectangleRatio, tgtCfgC, tgt99, abs_sub_lt_iff, le_abs])
      (by norm_num [Targeting.rectangleRatio, tgtCfgC, tgt99, abs_sub_lt_iff, le_abs])
      (by norm_num [Targeting.rectangleRatio, tgtCfgC, tgt99, abs_sub_lt_iff, le_abs])

/-! ## C10: the heading-adjust motion latches its reference heading -/

/-- C10: AdjustHeading stores the current gyro angle as the initial heading
when no adjustment is in progress and keeps the stored one otherwise; the
in-progress flag afterwards is the negation of reached (and is cleared with
reached=true when the drive or gyro is unavailable, without any motor
write); while an adjustment is in progress the observable outcome depends
on the adjustment argument only through latched-initial-plus-adjustment,
so a changed argument re-targets relative to the originally latched
heading. -/
theorem c10_adjust_heading_latch (cfg : DriveTrainConfig) (st : DriveTrainState)
    (adjustment speed d : ℚ) :
    ((st.robot_drive_present = false ∨ st.gyro_enabled_ = false) →
      (DriveTrain.adjustHeading cfg st adjustment speed).1.adjustment_in_progress_ = false ∧
      (DriveTrain.adjustHeading cfg st adjustment speed).2.1 = none ∧
      (DriveTrain.adjustHeading cfg st adjustment speed).2.2 = true) ∧
    (st.robot_drive_present = true → st.gyro_enabled_ = true →
      (DriveTrain.adjustHeading cfg st adjustment speed).1.initial_heading_ =
        (if st.adjustment_in_progress_ then st.initial_heading_ else st.gyro_angle_) ∧
      (DriveTrain.adjustHeading cfg st adjustment speed).1.adjustment_in_progress_ =
        !(DriveTrain.adjustHeading cfg st adjustment speed).2.2) ∧
    (st.adjustment_in_progress_ = true →
      (DriveTrain.adjustHeading cfg st adjustment speed).2 =
        (DriveTrain.adjustHeading cfg { st with initial_heading_ := st.initial_heading_ + d }
          (adjustment - d) speed).2) := by
  refine ⟨?_, ?_, ?_⟩
  · intro h
    unfold DriveTrain.adjustHeading
    rw [if_pos h]
    exact ⟨rfl, rfl, rfl⟩
  · intro hp hg
    unfold DriveTrain.adjustHeading
    rw [if_neg (by simp [hp, hg])]
    split_ifs <;> simp_all <;> split_ifs <;> simp_all
  · intro hip
    unfold DriveTrain.adjustHeading
    by_cases hav : st.robot_drive_present = false ∨ st.gyro_enabled_ = false
    · simp [hip, hav]
    · simp [hip, hav, apply_ite Prod.snd]

/-- Witness for C10: at a latched in-progress state (initial 50, gyro 20)
the outcome for adjustment 90 equals the outcome for the re-decomposed
initial 80 and adjustment 60; at a fresh state the gyro angle 20 is
latched. -/
theorem c10_witness :
    (DriveTrain.adjustHeading dtCfgA
        { dtStA with adjustment_in_progress_ := true, initial_heading_ := 50, gyro_angle_ := 20 } 90 1).2 =
      (DriveTrain.adjustHeading dtCfgA
        { dtStA with adjustment_in_progress_ := true, initial_heading_ := 50 + 30, gyro_angle_ := 20 } (90 - 30) 1).2 ∧
    (DriveTrain.adjustHeading dtCfgA { dtStA with gyro_angle_ := 20 } 90 1).1.initial_heading_ = 20 := by
  constructor
  · exact (c10_adjust_heading_latch dtCfgA
      { dtStA with adjustment_in_progress_ := true, initial_heading_ := 50, gyro_angle_ := 20 } 90 1 30).2.2 rfl
  · have h := (c10_adjust_heading_latch dtCfgA { dtStA with gyro_angle_ := 20 } 90 1 0).2.1 rfl rfl
    simpa [dtStA] using h.1

/-! ## C5: the published snapshot is not guaranteed sorted -/

/-- A detection passing the filter with vertical center of mass 5. -/
def tgtY5 : ParticleReport := ⟨10, 5, 0, 5, 50, 320, 240⟩

/-- A detection passing the filter with vertical center of mass 3. -/
def tgtY3 : ParticleReport := ⟨10, 5, 0, 3, 50, 320, 240⟩

/-- C5: FindTargetsTask passes the qsort-style three-way comparator
CompareTargets to std::sort, whose int result is converted to bool, so the
predicate the sort receives holds in BOTH directions whenever two vertical
centers differ (1 and -1 both convert to true).  That violates the
strict-weak-ordering precondition of std::sort, so the published snapshot
is not guaranteed ascending, contradicting the sorted invariant that both
the spec and the function's own "Ascending order" comment intend: on the
two filtered detections below (centers 5 and 3) the comparison sort leaves
the snapshot as [5, 3], which is not sorted ascending. -/
theorem c5_sort_comparator_bug :
    Targeting.compareTargetsAsBool tgtY5 tgtY3 = true ∧
    Targeting.compareTargetsAsBool tgtY3 tgtY5 = true ∧
    Targeting.keepTarget tgtCfgC tgtY5 = true ∧
    Targeting.keepTarget tgtCfgC tgtY3 = true ∧
    Targeting.publishSnapshot tgtCfgC [tgtY5, tgtY3] = [tgtY5, tgtY3] ∧
    Targeting.isSortedByY (Targeting.publishSnapshot tgtCfgC [tgtY5, tgtY3]) = false := by
  refine ⟨by rfl, by rfl, ?_, ?_, ?_, ?_⟩
  · norm_num [Targeting.keepTarget, Targeting.rectangleRatio, Targeting.rectangleScore,
      tgtCfgC, tgtY5]
  · norm_num [Targeting.keepTarget, Targeting.rectangleRatio, Targeting.rectangleScore,
      tgtCfgC, tgtY3]
  · norm_num [Targeting.publishSnapshot, Targeting.sortByLt, Targeting.insertByLt,
      Targeting.keepTarget, Targeting.rectangleRatio, Targeting.rectangleScore,
      Targeting.compareTargetsAsBool, Targeting.compareTargets, tgtCfgC, tgtY5, tgtY3]
  · norm_num [Targeting.publishSnapshot, Targeting.sortByLt, Targeting.insertByLt,
      Targeting.isSortedByY, Targeting.keepTarget, Targeting.rectangleRatio,
      Targeting.rectangleScore, Targeting.compareTargetsAsBool, Targeting.compareTargets,
      tgtCfgC, tgtY5, tgtY3]

/-! ## Projection lemmas for the per-tick sensor reads -/

@[simp] lemma shooter_readSensors_pitch_enabled (s : ShooterState) (e : ℤ) :
    (Shooter.readSensors s e).pitch_enabled_ = s.pitch_enabled_ := by
  unfold Shooter.readSensors; split_ifs <;> rfl

@[simp] lemma shooter_readSensors_shooter_enabled (s : ShooterState) (e : ℤ) :
    (Shooter.readSensors s e).shooter_enabled_ = s.shooter_enabled_ := by
  unfold Shooter.readSensors; split_ifs <;> rfl

@[simp] lemma shooter_readSensors_encoder_enabled (s : ShooterState) (e : ℤ) :
    (Shooter.readSensors s e).encoder_enabled_ = s.encoder_enabled_ := by
  unfold Shooter.readSensors; split_ifs <;> rfl

@[simp] lemma rsp_script_defined (st : RobotState) (env : Env) :
    (TechnoJays.readSensorsPeriodic st env).script_defined = st.script_defined := by
  simp only [TechnoJays.readSensorsPeriodic]; split_ifs <;> rfl

@[simp] lemma rsp_current_command (st : RobotState) (env : Env) :
    (TechnoJays.readSensorsPeriodic st env).current_command_ = st.current_command_ := by
  simp only [TechnoJays.readSensorsPeriodic]; split_ifs <;> rfl

@[simp] lemma rsp_in_progress (st : RobotState) (env : Env) :
    (TechnoJays.readSensorsPeriodic st env).current_command_in_progress_ =
      st.current_command_in_progress_ := by
  simp only [TechnoJays.readSensorsPeriodic]; split_ifs <;> rfl

@[simp] lemma rsp_remaining (st : RobotState) (env : Env) :
    (TechnoJays.readSensorsPeriodic st env).remaining_commands = st.remaining_commands := by
  simp only [TechnoJays.readSensorsPeriodic]; split_ifs <;> rfl

@[simp] lemma rsp_timer (st : RobotState) (env : Env) :
    (TechnoJays.readSensorsPeriodic st env).timer_ = st.timer_ := by
  simp only [TechnoJays.readSensorsPeriodic]; split_ifs <;> rfl

@[simp] lemma rsp_drive_present (st : RobotState) (env : Env) :
    (TechnoJays.readSensorsPeriodic st env).drive_present = st.drive_present := by
  simp only [TechnoJays.readSensorsPeriodic]; split_ifs <;> rfl

@[simp] lemma rsp_climber_present (st : RobotState) (env : Env) :
    (TechnoJays.readSensorsPeriodic st env).climber_present = st.climber_present := by
  simp only [TechnoJays.readSensorsPeriodic]; split_ifs <;> rfl

@[simp] lemma rsp_shooter_present (st : RobotState) (env : Env) :
    (TechnoJays.readSensorsPeriodic st env).shooter_present = st.shooter_present := by
  simp only [TechnoJays.readSensorsPeriodic]; split_ifs <;> rfl

@[simp] lemma rsp_feeder_present (st : RobotState) (env : Env) :
    (TechnoJays.readSensorsPeriodic st env).feeder_present = st.feeder_present := by
  simp only [TechnoJays.readSensorsPeriodic]; split_ifs <;> rfl

@[simp] lemma rsp_ui_present (st : RobotState) (env : Env) :
    (TechnoJays.readSensorsPeriodic st env).user_interface_present =
      st.user_interface_present := by
  simp only [TechnoJays.readSensorsPeriodic]; split_ifs <;> rfl

@[simp] lemma rsp_shooter_pitch_enabled (st : RobotState) (env : Env) :
    (TechnoJays.readSensorsPeriodic st env).shooter.pitch_enabled_ =
      st.shooter.pitch_enabled_ := by
  simp only [TechnoJays.readSensorsPeriodic]; split_ifs <;> simp

@[simp] lemma rsp_shooter_shooter_enabled (st : RobotState) (env : Env) :
    (TechnoJays.readSensorsPeriodic st env).shooter.shooter_enabled_ =
      st.shooter.shooter_enabled_ := by
  simp only [TechnoJays.readSensorsPeriodic]; split_ifs <;> simp

/-! ## C2: script-interpreter error handling -/

/-- The parameter-validation predicate of AutonomousPeriodic: a command is
rejected (marked complete with no subsystem operation) when one of the
numeric parameters its branch checks equals the unset sentinel, or when its
name matches no branch.  Mirrors the checks of part_004:378-555. -/
def commandRejected (c : AutoCmd) : Bool :=
  if c.command = "wait" then c.param1 = sentinel
  else if c.command = "adjustheading" then c.param1 = sentinel ∨ c.param2 = sentinel
  else if c.command = "drivedistance" then c.param1 = sentinel ∨ c.param2 = sentinel
  else if c.command = "drivetime" then
    c.param1 = sentinel ∨ c.param2 = sentinel ∨ c.param3 = sentinel
  else if c.command = "turnheading" then c.param1 = sentinel ∨ c.param2 = sentinel
  else if c.command = "turntime" then
    c.param1 = sentinel ∨ c.param2 = sentinel ∨ c.param3 = sentinel
  else if c.command = "pitchposition" then c.param1 = sentinel ∨ c.param2 = sentinel
  else if c.command = "pitchtime" then
    c.param1 = sentinel ∨ c.param2 = sentinel ∨ c.param3 = sentinel
  else if c.command = "pitchangle" then c.param1 = sentinel ∨ c.param2 = sentinel
  else if c.command = "shoot" then c.param1 = sentinel
  else if c.command = "rapidfire" then false
  else if c.command = "findtarget" then c.param1 = sentinel
  else true

/-- A rejected command is a complete no-op: no state change, no subsystem
call, completion reported. -/
lemma executeScriptCommand_rejected (st : RobotState) (env : Env)
    (hrej : commandRejected st.current_command_ = true) :
    TechnoJays.executeScriptCommand st env = (st, [], true) := by
  unfold commandRejected at hrej
  unfold TechnoJays.executeScriptCommand
  by_cases h1 : st.current_command_.command = "wait"
  · rw [if_pos h1] at hrej
    rw [if_pos h1, if_pos (of_decide_eq_true hrej)]
  · rw [if_neg h1] at hrej
    rw [if_neg h1]
    by_cases h2 : st.current_command_.command = "adjustheading"
    · rw [if_pos h2] at hrej
      rw [if_pos h2, if_pos (of_decide_eq_true hrej)]
    · rw [if_neg h2] at hrej
      rw [if_neg h2]
      by_cases h3 : st.current_command_.command = "drivedistance"
      · rw [if_pos h3] at hrej
        rw [if_pos h3, if_pos (of_decide_eq_true hrej)]
      · rw [if_neg h3] at hrej
        rw [if_neg h3]
        by_cases h4 : st.current_command_.command = "drivetime"
        · rw [if_pos h4] at hrej
          rw [if_pos h4, if_pos (of_decide_eq_true hrej)]
        · rw [if_neg h4] at hrej
          rw [if_neg h4]
          by_cases h5 : st.current_command_.command = "turnheading"
          · rw [if_pos h5] at hrej
            rw [if_pos h5, if_pos (of_decide_eq_true hrej)]
          · rw [if_neg h5] at hrej
            rw [if_neg h5]
            by_cases h6 : st.current_command_.command = "turntime"
            · rw [if_pos h6] at hrej
              rw [if_pos h6, if_pos (of_decide_eq_true hrej)]
            · rw [if_neg h6] at hrej
              rw [if_neg h6]
              by_cases h7 : st.current_command_.command = "pitchposition"
              · rw [if_pos h7] at hrej
                rw [if_pos h7, if_pos (of_decide_eq_true hrej)]
              · rw [if_neg h7] at hrej
                rw [if_neg h7]
                by_cases h8 : st.current_command_.command = "pitchtime"
                · rw [if_pos h8] at hrej
                  rw [if_pos h8, if_pos (of_decide_eq_true hrej)]
                · rw [if_neg h8] at hrej
                  rw [if_neg h8]
                  by_cases h9 : st.current_command_.command = "pitchangle"
                  · rw [if_pos h9] at hrej
                    rw [if_pos h9, if_pos (of_decide_eq_true hrej)]
                  · rw [if_neg h9] at hrej
                    rw [if_neg h9]
                    by_cases h10 : st.current_command_.command = "shoot"
                    · rw [if_pos h10] at hrej
                      rw [if_pos h10, if_pos (of_decide_eq_true hrej)]
                    · rw [if_neg h10] at hrej
                      rw [if_neg h10]
                      by_cases h11 : st.current_command_.command = "rapidfire"
                      · rw [if_pos h11] at hrej
                        exact absurd hrej (by decide)
                      · rw [if_neg h11] at hrej
                        rw [if_neg h11]
                        by_cases h12 : st.current_command_.command = "findtarget"
                        · rw [if_pos h12] at hrej
                          rw [if_pos h12, if_pos (of_decide_eq_true hrej)]
                        · rw [if_neg h12]

/-- One tick on a halted script (current command "end" or "invalid")
commands every actuator to neutral and leaves the command cursor and the
subsystem availability unchanged. -/
lemma autonomousPeriodic_finished (st : RobotState) (env : Env)
    (hend : st.current_command_.command = "end" ∨ st.current_command_.command = "invalid")
    (hd : st.drive_present = true) (hc : st.climber_present = true)
    (hs : st.shooter_present = true) (hpe : st.shooter.pitch_enabled_ = true)
    (hse : st.shooter.shooter_enabled_ = true) :
    (TechnoJays.autonomousPeriodic st env).2 =
      [SubsystemCall.driveManualCall 0 0 false, SubsystemCall.climberMoveCall 0 false,
       SubsystemCall.movePitchCall 0 false, SubsystemCall.shootCall 0] ∧
    (TechnoJays.autonomousPeriodic st env).1.current_command_ = st.current_command_ ∧
    (TechnoJays.autonomousPeriodic st env).1.drive_present = true ∧
    (TechnoJays.autonomousPeriodic st env).1.climber_present = true ∧
    (TechnoJays.autonomousPeriodic st env).1.shooter_present = true ∧
    (TechnoJays.autonomousPeriodic st env).1.shooter.pitch_enabled_ = true ∧
    (TechnoJays.autonomousPeriodic st env).1.shooter.shooter_enabled_ = true := by
  have hnot : ¬(((TechnoJays.readSensorsPeriodic st env).script_defined = true) ∧
      (TechnoJays.readSensorsPeriodic st env).current_command_.command ≠ "invalid" ∧
      (TechnoJays.readSensorsPeriodic st env).current_command_.command ≠ "end") := by
    rintro ⟨-, hinv, hend2⟩
    rcases hend with h | h
    · exact hend2 (by rw [rsp_current_command, h])
    · exact hinv (by rw [rsp_current_command, h])
  simp only [TechnoJays.autonomousPeriodic]
  rw [if_neg hnot]
  simp [TechnoJays.autonomousNeutral, hd, hc, hs, hpe, hse]

/-- Iterated autonomous ticks under a stream of environments. -/
def autoIterate (st : RobotState) (envs : ℕ → Env) : ℕ → RobotState
  | 0 => st
  | n + 1 => (TechnoJays.autonomousPeriodic (autoIterate st envs n) (envs n)).1

/-- Once the script is halted, iteration preserves the command cursor and
the subsystem availability. -/
lemma autoIterate_invariant (st : RobotState) (envs : ℕ → Env) (n : ℕ)
    (hend : st.current_command_.command = "end" ∨ st.current_command_.command = "invalid")
    (hd : st.drive_present = true) (hc : st.climber_present = true)
    (hs : st.shooter_present = true) (hpe : st.shooter.pitch_enabled_ = true)
    (hse : st.shooter.shooter_enabled_ = true) :
    (autoIterate st envs n).current_command_ = st.current_command_ ∧
    (autoIterate st envs n).drive_present = true ∧
    (autoIterate st envs n).climber_present = true ∧
    (autoIterate st envs n).shooter_present = true ∧
    (autoIterate st envs n).shooter.pitch_enabled_ = true ∧
    (autoIterate st envs n).shooter.shooter_enabled_ = true := by
  induction n with
  | zero => exact ⟨rfl, hd, hc, hs, hpe, hse⟩
  | succ k ih =>
    have hstep := autonomousPeriodic_finished (autoIterate st envs k) (envs k)
      (by rw [ih.1]; exact hend) ih.2.1 ih.2.2.1 ih.2.2.2.1 ih.2.2.2.2.1 ih.2.2.2.2.2
    exact ⟨by rw [show autoIterate st envs (k+1) =
        (TechnoJays.autonomousPeriodic (autoIterate st envs k) (envs k)).1 from rfl,
        hstep.2.1, ih.1],
      hstep.2.2.1, hstep.2.2.2.1, hstep.2.2.2.2.1, hstep.2.2.2.2.2.1, hstep.2.2.2.2.2.2⟩

/-- C2: on every interpreter tick, a current command with a required
parameter equal to the unset sentinel, or with an unrecognized name token,
is marked complete immediately with no subsystem operation invoked and the
cursor advances; and once the current command is the "end" or "invalid"
token, every tick from then on invokes exactly the neutral commands
(drive 0, winch 0, pitch 0, shooter wheel 0) and the script never
resumes. -/
theorem c2_script_error_handling :
    (∀ (st : RobotState) (env : Env),
      st.script_defined = true →
      st.current_command_.command ≠ "invalid" →
      st.current_command_.command ≠ "end" →
      commandRejected st.current_command_ = true →
      (TechnoJays.autonomousPeriodic st env).2 = [] ∧
      (TechnoJays.autonomousPeriodic st env).1.current_command_ =
        (getNextCommand st.remaining_commands).1 ∧
      (TechnoJays.autonomousPeriodic st env).1.remaining_commands =
        (getNextCommand st.remaining_commands).2 ∧
      (TechnoJays.autonomousPeriodic st env).1.current_command_in_progress_ = false) ∧
    (∀ (st : RobotState) (envs : ℕ → Env) (n : ℕ),
      st.current_command_.command = "end" ∨ st.current_command_.command = "invalid" →
      st.drive_present = true → st.climber_present = true → st.shooter_present = true →
      st.shooter.pitch_enabled_ = true → st.shooter.shooter_enabled_ = true →
      (autoIterate st envs n).current_command_ = st.current_command_ ∧
      (TechnoJays.autonomousPeriodic (autoIterate st envs n) (envs n)).2 =
        [SubsystemCall.driveManualCall 0 0 false, SubsystemCall.climberMoveCall 0 false,
         SubsystemCall.movePitchCall 0 false, SubsystemCall.shootCall 0]) := by
  constructor
  · intro st env hsd hinv hend hrej
    have hrej1 : commandRejected (TechnoJays.readSensorsPeriodic st env).current_command_ = true := by
      rw [rsp_current_command]; exact hrej
    simp only [TechnoJays.autonomousPeriodic]
    rw [if_pos ⟨by rw [rsp_script_defined]; exact hsd,
               by rw [rsp_current_command]; exact hinv,
               by rw [rsp_current_command]; exact hend⟩]
    rw [executeScriptCommand_rejected _ _ hrej1]
    simp
  · intro st envs n hend hd hc hs hpe hse
    have hinv := autoIterate_invariant st envs n hend hd hc hs hpe hse
    have hstep := autonomousPeriodic_finished (autoIterate st envs n) (envs n)
      (by rw [hinv.1]; exact hend) hinv.2.1 hinv.2.2.1 hinv.2.2.2.1 hinv.2.2.2.2.1
      hinv.2.2.2.2.2
    exact ⟨hinv.1, hstep.1⟩

/-- A fully healthy robot fixture: every subsystem present and enabled,
all routines Finished, timers stopped, script halted at "end". -/
def baseRobot : RobotState :=
  { driveCfg := dtCfgA
    shooterCfg := sCfgA
    climberCfg := cCfgA
    targetingCfg := tgtCfgC
    drive := dtStA
    shooter := sStA
    climber := cStA
    feeder := ⟨true, true⟩
    drive_present := true
    shooter_present := true
    climber_present := true
    feeder_present := true
    targeting_present := true
    user_interface_present := true
    camera_enabled_ := true
    timer_ := ⟨false, 0, 0⟩
    auto_shoot_timer_ := ⟨false, 0, 0⟩
    script_defined := true
    current_command_ := endCommand
    current_command_in_progress_ := false
    remaining_commands := []
    auto_shoot_state_ := RStep.kFinished
    auto_rapid_fire_state_ := RStep.kFinished
    auto_find_target_state_ := RStep.kFinished
    auto_cycle_target_state_ := RStep.kFinished
    auto_feeder_height_state_ := RStep.kFinished
    auto_climbing_prep_state_ := RStep.kFinished
    auto_climb_state_ := RStep.kFinished
    aim_state_ := RStep.kFinished
    auto_climb_pitch_finished_ := false
    auto_climb_winch_finished_ := false
    degrees_off_ := 0
    current_target_ := ⟨0, 0, 0, 0, 0, 0, 0⟩
    targets_report_ := []
    current_target_vector_location_ := 0
    target_report_heading_ := 0
    driver_turbo_ := false
    scoring_turbo_ := false
    previous_scoring_dpad_y_ := 0
    ignore_encoder_limits_requested_ := false
    detailed_logging_enabled_ := false
    auto_shooter_spinup_time_ := 1
    auto_shooter_spindown_time_ := 1
    auto_feeder_height_angle_ := 30
    auto_climbing_encoder_count_ := 100
    auto_climb_backup_speed_ := -3/10
    auto_climb_headstart_encoder_count_ := 500
    auto_climb_winch_speed_ := 8/10
    auto_climb_winch_time_ := 5 }

/-- An idle environment: clock at 0, all sticks centered, no buttons. -/
def baseEnv : Env :=
  { now := 0
    gyro_angle := 0
    acceleration := 0
    accel_loop_time := 0
    shooter_encoder := 0
    climber_encoder := 0
    snapshot_available := false
    snapshot := []
    vertical_angle_reading := 0
    driver_left_y := 0
    driver_right_y := 0
    scoring_left_y := 0
    scoring_right_y := 0
    scoring_dpad_y := 0
    driver_right_bumper := false
    scoring_right_bumper := false
    scoring_left_bumper := false
    scoring_right_trigger := false
    scoring_right_trigger_changed := false
    scoring_x := false
    scoring_x_changed := false
    scoring_b := false
    scoring_b_changed := false
    scoring_y := false
    scoring_y_changed := false
    scoring_a := false
    scoring_a_changed := false
    scoring_start := false
    scoring_start_changed := false
    scoring_back := false
    scoring_back_changed := false
    scoring_left_trigger := false
    driver_b := false
    driver_b_changed := false }

/-- A drivedistance command whose second (required) parameter is unset. -/
def badDriveCmd : AutoCmd := ⟨"drivedistance", 5, sentinel, sentinel, sentinel, sentinel⟩

/-- Witness for C2: a sentinel-rejected drivedistance command is a no-op
and advances the cursor to "end"; and on the third tick after the halt the
trace is still exactly the neutral commands. -/
theorem c2_witness :
    (TechnoJays.autonomousPeriodic
        { baseRobot with current_command_ := badDriveCmd, remaining_commands := [endCommand] }
        baseEnv).2 = [] ∧
    (TechnoJays.autonomousPeriodic
        { baseRobot with current_command_ := badDriveCmd, remaining_commands := [endCommand] }
        baseEnv).1.current_command_ = endCommand ∧
    (TechnoJays.autonomousPeriodic (autoIterate baseRobot (fun _ => baseEnv) 2)
        ((fun _ => baseEnv) 2)).2 =
      [SubsystemCall.driveManualCall 0 0 false, SubsystemCall.climberMoveCall 0 false,
       SubsystemCall.movePitchCall 0 false, SubsystemCall.shootCall 0] := by
  have ha := c2_script_error_handling.1
    { baseRobot with current_command_ := badDriveCmd, remaining_commands := [endCommand] }
    baseEnv rfl (by decide) (by decide)
    (by simp [commandRejected, badDriveCmd, sentinel])
  have hb := c2_script_error_handling.2 baseRobot (fun _ => baseEnv) 2
    (Or.inl rfl) rfl rfl rfl rfl rfl
  exact ⟨ha.1, ha.2.1, hb.2⟩

/-! ## C7: the "wait 2" script scenario -/

/-- The Scenario D wait command: "wait 2". -/
def waitCmd2 : AutoCmd := ⟨"wait", 2, sentinel, sentinel, sentinel, sentinel⟩

/-- The Scenario D drive command: "drivedistance 5 0.5". -/
def driveDistCmd : AutoCmd := ⟨"drivedistance", 5, 1/2, sentinel, sentinel, sentinel⟩

/-- Restarting a timer (stop, reset, start) makes it read zero at the
restart instant. -/
@[simp] lemma timer_restart_get (t : TimerState) (now : ℚ) :
    ((((t.stop now).reset now).start now).get now) = 0 := by
  unfold TimerState.stop TimerState.reset TimerState.start TimerState.get
  split_ifs <;> simp

/-- The Scenario D state two seconds into the wait command. -/
def c7St : RobotState := { baseRobot with current_command_ := waitCmd2, current_command_in_progress_ := true, timer_ := ⟨true, 0, 0⟩, remaining_commands := [driveDistCmd, endCommand] }

/-- The environment whose clock reads exactly 2 seconds. -/
def c7Env : Env := { baseEnv with now := 2 }

/-- C7 counterexample: with the wait command in progress and exactly 2
seconds elapsed, the code computes time_left = 0 which is not < 0
(part_004:397), so the command does not complete and the cursor stays on
"wait", contradicting the claimed "once at least 2 seconds have elapsed". -/
theorem c7_counterexample :
    c7St.timer_.get c7Env.now ≥ 2 ∧
    (TechnoJays.autonomousPeriodic c7St c7Env).1.current_command_ = waitCmd2 ∧
    (TechnoJays.autonomousPeriodic c7St c7Env).1.current_command_in_progress_ = true := by
  refine ⟨by norm_num [TimerState.get, c7St, c7Env, baseEnv], ?_, ?_⟩ <;>
  · norm_num [TechnoJays.autonomousPeriodic, TechnoJays.executeScriptCommand,
      TechnoJays.readSensorsPeriodic, Shooter.readSensors, DriveTrain.readSensors,
      Climber.readSensors, TimerState.get, waitCmd2, sentinel, c7St, c7Env, baseRobot,
      baseEnv, dtStA, sStA, cStA]
    rw [if_pos (show ¬"wait" = "invalid" ∧ ¬"wait" = "end" from ⟨by decide, by decide⟩)]

/-- C7 amended: while the wait command's elapsed time is at most 2 seconds
(strictly: not more than 2) the cursor remains on "wait" with no subsystem
call; the first tick latches the in-progress flag and restarts the timer so
it reads 0; once strictly more than 2 seconds have elapsed the command
completes and the cursor advances to "drivedistance". -/
theorem c7_wait_script (st : RobotState) (env : Env)
    (hscript : st.script_defined = true)
    (hcur : st.current_command_ = waitCmd2)
    (hrem : st.remaining_commands = [driveDistCmd, endCommand]) :
    (st.current_command_in_progress_ = false →
      (TechnoJays.autonomousPeriodic st env).2 = [] ∧
      (TechnoJays.autonomousPeriodic st env).1.current_command_ = waitCmd2 ∧
      (TechnoJays.autonomousPeriodic st env).1.current_command_in_progress_ = true) ∧
    (st.current_command_in_progress_ = true → st.timer_.get env.now ≤ 2 →
      (TechnoJays.autonomousPeriodic st env).2 = [] ∧
      (TechnoJays.autonomousPeriodic st env).1.current_command_ = waitCmd2 ∧
      (TechnoJays.autonomousPeriodic st env).1.current_command_in_progress_ = true) ∧
    (st.current_command_in_progress_ = true → st.timer_.get env.now > 2 →
      (TechnoJays.autonomousPeriodic st env).2 = [] ∧
      (TechnoJays.autonomousPeriodic st env).1.current_command_ = driveDistCmd ∧
      (TechnoJays.autonomousPeriodic st env).1.current_command_in_progress_ = false) := by
  have hcond : ((TechnoJays.readSensorsPeriodic st env).script_defined = true) ∧
      (TechnoJays.readSensorsPeriodic st env).current_command_.command ≠ "invalid" ∧
      (TechnoJays.readSensorsPeriodic st env).current_command_.command ≠ "end" := by
    refine ⟨by rw [rsp_script_defined]; exact hscript, ?_, ?_⟩ <;>
      rw [rsp_current_command, hcur] <;> decide
  refine ⟨?_, ?_, ?_⟩
  · intro hip
    simp only [TechnoJays.autonomousPeriodic]
    rw [if_pos hcond]
    simp only [TechnoJays.executeScriptCommand, rsp_current_command, rsp_in_progress,
      rsp_timer, hcur, hip, waitCmd2]
    norm_num [sentinel]
  · intro hip hle
    have hnl : ¬((2 : ℚ) - st.timer_.get env.now < 0) := by linarith
    simp only [TechnoJays.autonomousPeriodic]
    rw [if_pos hcond]
    simp only [TechnoJays.executeScriptCommand, rsp_current_command, rsp_in_progress,
      rsp_timer, hcur, hip, waitCmd2]
    norm_num [sentinel, hnl, hcur, hip, waitCmd2]
  · intro hip hgt
    have hnl : (2 : ℚ) - st.timer_.get env.now < 0 := by linarith
    simp only [TechnoJays.autonomousPeriodic]
    rw [if_pos hcond]
    simp only [TechnoJays.executeScriptCommand, rsp_current_command, rsp_in_progress,
      rsp_timer, hcur, hip, waitCmd2]
    norm_num [sentinel, hnl, hcur, hip, waitCmd2, hrem, getNextCommand]

/-- The Scenario D state on its very first tick. -/
def c7StFresh : RobotState := { baseRobot with current_command_ := waitCmd2, remaining_commands := [driveDistCmd, endCommand] }

/-- The environment whose clock reads 3 seconds. -/
def c7EnvLate : Env := { baseEnv with now := 3 }

/-- Witness for C7: the first tick stays on "wait"; a tick with 3 seconds
elapsed advances the cursor to "drivedistance". -/
theorem c7_witness :
    (TechnoJays.autonomousPeriodic c7StFresh baseEnv).1.current_command_ = waitCmd2 ∧
    (TechnoJays.autonomousPeriodic c7St c7EnvLate).1.current_command_ = driveDistCmd := by
  constructor
  · exact ((c7_wait_script c7StFresh baseEnv rfl rfl rfl).1 rfl).2.1
  · exact ((c7_wait_script c7St c7EnvLate rfl rfl rfl).2.2 rfl
      (by norm_num [TimerState.get, c7St, c7EnvLate, baseEnv])).2.1

/-! ## C1: teleop arbitration lemmas -/

@[simp] lemma autoShootStep3_dp (st : RobotState) (env : Env) :
    (TechnoJays.autoShootStep3 st env).1.drive_present = st.drive_present := rfl

@[simp] lemma autoShootStep3_ui (st : RobotState) (env : Env) :
    (TechnoJays.autoShootStep3 st env).1.user_interface_present =
      st.user_interface_present := rfl

@[simp] lemma rapidFireFeed_dp (st : RobotState) (env : Env) (n : RStep) :
    (TechnoJays.rapidFireFeed st env n).1.drive_present = st.drive_present := rfl

@[simp] lemma rapidFireFeed_ui (st : RobotState) (env : Env) (n : RStep) :
    (TechnoJays.rapidFireFeed st env n).1.user_interface_present =
      st.user_interface_present := rfl

@[simp] lemma rapidFireSpindown_dp (st : RobotState) (env : Env) (e : ℚ) (n : RStep) :
    (TechnoJays.rapidFireSpindown st env e n).drive_present = st.drive_present := by
  simp only [TechnoJays.rapidFireSpindown]
  repeat' split
  all_goals rfl

@[simp] lemma rapidFireSpindown_ui (st : RobotState) (env : Env) (e : ℚ) (n : RStep) :
    (TechnoJays.rapidFireSpindown st env e n).user_interface_present =
      st.user_interface_present := by
  simp only [TechnoJays.rapidFireSpindown]
  repeat' split
  all_goals rfl

@[simp] lemma rapidFirePistonWait_dp (st : RobotState) (env : Env) (e : ℚ) (n m : RStep) :
    (TechnoJays.rapidFirePistonWait st env e n m).1.drive_present = st.drive_present := by
  simp only [TechnoJays.rapidFirePistonWait]
  repeat' split
  all_goals simp

@[simp] lemma rapidFirePistonWait_ui (st : RobotState) (env : Env) (e : ℚ) (n m : RStep) :
    (TechnoJays.rapidFirePistonWait st env e n m).1.user_interface_present =
      st.user_interface_present := by
  simp only [TechnoJays.rapidFirePistonWait]
  repeat' split
  all_goals simp

@[simp] lemma autoShoot_dp (st : RobotState) (env : Env) (p : ℤ) :
    (TechnoJays.autoShoot st env p).1.drive_present = st.drive_present := by
  simp only [TechnoJays.autoShoot]
  repeat' split
  all_goals simp

@[simp] lemma autoShoot_ui (st : RobotState) (env : Env) (p : ℤ) :
    (TechnoJays.autoShoot st env p).1.user_interface_present = st.user_interface_present := by
  simp only [TechnoJays.autoShoot]
  repeat' split
  all_goals simp

set_option maxHeartbeats 2000000 in
@[simp] lemma autoRapidFire_dp (st : RobotState) (env : Env) :
    (TechnoJays.autoRapidFire st env).1.drive_present = st.drive_present := by
  cases h : st.auto_rapid_fire_state_ <;>
    simp only [TechnoJays.autoRapidFire, h, reduceCtorEq, if_false, if_true] <;>
    split_ifs <;>
    simp only [rapidFireFeed_dp, rapidFirePistonWait_dp, rapidFireSpindown_dp]

set_option maxHeartbeats 2000000 in
@[simp] lemma autoRapidFire_ui (st : RobotState) (env : Env) :
    (TechnoJays.autoRapidFire st env).1.user_interface_present =
      st.user_interface_present := by
  cases h : st.auto_rapid_fire_state_ <;>
    simp only [TechnoJays.autoRapidFire, h, reduceCtorEq, if_false, if_true] <;>
    split_ifs <;>
    simp only [rapidFireFeed_ui, rapidFirePistonWait_ui, rapidFireSpindown_ui]

@[simp] lemma getTargets_dp (st : RobotState) (env : Env) :
    (TechnoJays.getTargets st env).drive_present = st.drive_present := by
  simp only [TechnoJays.getTargets]
  repeat' split
  all_goals rfl

@[simp] lemma getTargets_ui (st : RobotState) (env : Env) :
    (TechnoJays.getTargets st env).user_interface_present = st.user_interface_present := by
  simp only [TechnoJays.getTargets]
  repeat' split
  all_goals rfl

@[simp] lemma nextTarget_dp (st : RobotState) :
    (TechnoJays.nextTarget st).drive_present = st.drive_present := by
  simp only [TechnoJays.nextTarget]
  repeat' split
  all_goals rfl

@[simp] lemma nextTarget_ui (st : RobotState) :
    (TechnoJays.nextTarget st).user_interface_present = st.user_interface_present := by
  simp only [TechnoJays.nextTarget]
  repeat' split
  all_goals rfl

@[simp] lemma selectTarget_dp (st : RobotState) (h : TargetHeight) :
    (TechnoJays.selectTarget st h).drive_present = st.drive_present := by
  simp only [TechnoJays.selectTarget]
  repeat' split
  all_goals rfl

@[simp] lemma selectTarget_ui (st : RobotState) (h : TargetHeight) :
    (TechnoJays.selectTarget st h).user_interface_present = st.user_interface_present := by
  simp only [TechnoJays.selectTarget]
  repeat' split
  all_goals rfl

@[simp] lemma aimAtTarget_dp (st : RobotState) (env : Env) :
    (TechnoJays.aimAtTarget st env).1.drive_present = st.drive_present := by
  simp only [TechnoJays.aimAtTarget]
  repeat' split
  all_goals rfl

@[simp] lemma aimAtTarget_ui (st : RobotState) (env : Env) :
    (TechnoJays.aimAtTarget st env).1.user_interface_present =
      st.user_interface_present := by
  simp only [TechnoJays.aimAtTarget]
  repeat' split
  all_goals rfl

@[simp] lemma autoFindTarget_dp (st : RobotState) (env : Env) (h : TargetHeight) :
    (TechnoJays.autoFindTarget st env h).1.drive_present = st.drive_present := by
  simp only [TechnoJays.autoFindTarget]
  repeat' split
  all_goals simp

@[simp] lemma autoFindTarget_ui (st : RobotState) (env : Env) (h : TargetHeight) :
    (TechnoJays.autoFindTarget st env h).1.user_interface_present =
      st.user_interface_present := by
  simp only [TechnoJays.autoFindTarget]
  repeat' split
  all_goals simp

@[simp] lemma autoFeederHeight_dp (st : RobotState) :
    (TechnoJays.autoFeederHeight st).1.drive_present = st.drive_present := by
  simp only [TechnoJays.autoFeederHeight]
  repeat' split
  all_goals rfl

@[simp] lemma autoFeederHeight_ui (st : RobotState) :
    (TechnoJays.autoFeederHeight st).1.user_interface_present =
      st.user_interface_present := by
  simp only [TechnoJays.autoFeederHeight]
  repeat' split
  all_goals rfl

@[simp] lemma autoClimbingPrep_dp (st : RobotState) :
    (TechnoJays.autoClimbingPrep st).1.drive_present = st.drive_present := by
  simp only [TechnoJays.autoClimbingPrep]
  repeat' split
  all_goals rfl

@[simp] lemma autoClimbingPrep_ui (st : RobotState) :
    (TechnoJays.autoClimbingPrep st).1.user_interface_present =
      st.user_interface_present := by
  simp only [TechnoJays.autoClimbingPrep]
  repeat' split
  all_goals rfl

set_option maxHeartbeats 2000000 in
@[simp] lemma autoClimb_dp (st : RobotState) (env : Env) :
    (TechnoJays.autoClimb st env).1.drive_present = st.drive_present := by
  cases h : st.auto_climb_state_ <;>
    simp only [TechnoJays.autoClimb, h, reduceCtorEq, if_false, if_true] <;>
    split_ifs <;> rfl

set_option maxHeartbeats 2000000 in
@[simp] lemma autoClimb_ui (st : RobotState) (env : Env) :
    (TechnoJays.autoClimb st env).1.user_interface_present =
      st.user_interface_present := by
  cases h : st.auto_climb_state_ <;>
    simp only [TechnoJays.autoClimb, h, reduceCtorEq, if_false, if_true] <;>
    split_ifs <;> rfl

@[simp] lemma routineRapid_dp (p : RobotState × List (CmdSource × SubsystemCall)) (env : Env) :
    (TechnoJays.routineRapid p env).1.drive_present = p.1.drive_present := by
  simp only [TechnoJays.routineRapid]
  split_ifs <;> simp

@[simp] lemma routineRapid_ui (p : RobotState × List (CmdSource × SubsystemCall)) (env : Env) :
    (TechnoJays.routineRapid p env).1.user_interface_present = p.1.user_interface_present := by
  simp only [TechnoJays.routineRapid]
  split_ifs <;> simp

@[simp] lemma routineShoot_dp (p : RobotState × List (CmdSource × SubsystemCall)) (env : Env) :
    (TechnoJays.routineShoot p env).1.drive_present = p.1.drive_present := by
  simp only [TechnoJays.routineShoot]
  split_ifs <;> simp

@[simp] lemma routineShoot_ui (p : RobotState × List (CmdSource × SubsystemCall)) (env : Env) :
    (TechnoJays.routineShoot p env).1.user_interface_present = p.1.user_interface_present := by
  simp only [TechnoJays.routineShoot]
  split_ifs <;> simp

@[simp] lemma routineFind_dp (p : RobotState × List (CmdSource × SubsystemCall)) (env : Env) :
    (TechnoJays.routineFind p env).1.drive_present = p.1.drive_present := by
  simp only [TechnoJays.routineFind]
  split_ifs <;> simp

@[simp] lemma routineFind_ui (p : RobotState × List (CmdSource × SubsystemCall)) (env : Env) :
    (TechnoJays.routineFind p env).1.user_interface_present = p.1.user_interface_present := by
  simp only [TechnoJays.routineFind]
  split_ifs <;> simp

@[simp] lemma routineCycle_dp (p : RobotState × List (CmdSource × SubsystemCall)) (env : Env) :
    (TechnoJays.routineCycle p env).1.drive_present = p.1.drive_present := by
  simp only [TechnoJays.routineCycle]
  split_ifs <;> simp

@[simp] lemma routineCycle_ui (p : RobotState × List (CmdSource × SubsystemCall)) (env : Env) :
    (TechnoJays.routineCycle p env).1.user_interface_present = p.1.user_interface_present := by
  simp only [TechnoJays.routineCycle]
  split_ifs <;> simp

@[simp] lemma routineFeederHeight_dp (p : RobotState × List (CmdSource × SubsystemCall)) :
    (TechnoJays.routineFeederHeight p).1.drive_present = p.1.drive_present := by
  simp only [TechnoJays.routineFeederHeight]
  split_ifs <;> simp

@[simp] lemma routineFeederHeight_ui (p : RobotState × List (CmdSource × SubsystemCall)) :
    (TechnoJays.routineFeederHeight p).1.user_interface_present = p.1.user_interface_present := by
  simp only [TechnoJays.routineFeederHeight]
  split_ifs <;> simp

@[simp] lemma routinePrep_dp (p : RobotState × List (CmdSource × SubsystemCall)) :
    (TechnoJays.routinePrep p).1.drive_present = p.1.drive_present := by
  simp only [TechnoJays.routinePrep]
  split_ifs <;> simp

@[simp] lemma routinePrep_ui (p : RobotState × List (CmdSource × SubsystemCall)) :
    (TechnoJays.routinePrep p).1.user_interface_present = p.1.user_interface_present := by
  simp only [TechnoJays.routinePrep]
  split_ifs <;> simp

@[simp] lemma routineClimb_dp (p : RobotState × List (CmdSource × SubsystemCall)) (env : Env) :
    (TechnoJays.routineClimb p env).1.drive_present = p.1.drive_present := by
  simp only [TechnoJays.routineClimb]
  split_ifs <;> simp

@[simp] lemma routineClimb_ui (p : RobotState × List (CmdSource × SubsystemCall)) (env : Env) :
    (TechnoJays.routineClimb p env).1.user_interface_present = p.1.user_interface_present := by
  simp only [TechnoJays.routineClimb]
  split_ifs <;> simp

@[simp] lemma routinePhase_dp (st : RobotState) (env : Env) :
    (TechnoJays.teleopRoutinePhase st env).1.drive_present = st.drive_present := by
  simp only [TechnoJays.teleopRoutinePhase, routineClimb_dp, routinePrep_dp,
    routineFeederHeight_dp, routineCycle_dp, routineFind_dp, routineShoot_dp,
    routineRapid_dp]

@[simp] lemma routinePhase_ui (st : RobotState) (env : Env) :
    (TechnoJays.teleopRoutinePhase st env).1.user_interface_present =
      st.user_interface_present := by
  simp only [TechnoJays.teleopRoutinePhase, routineClimb_ui, routinePrep_ui,
    routineFeederHeight_ui, routineCycle_ui, routineFind_ui, routineShoot_ui,
    routineRapid_ui]

@[simp] lemma buttonsBase_turbo (st : RobotState) (env : Env) :
    (TechnoJays.buttonsBase st env).driver_turbo_ = env.driver_right_bumper := rfl

@[simp] lemma buttonsBase_dp (st : RobotState) (env : Env) :
    (TechnoJays.buttonsBase st env).drive_present = st.drive_present := rfl

@[simp] lemma buttonsShootStart_turbo (st : RobotState) (env : Env) :
    (TechnoJays.buttonsShootStart st env).driver_turbo_ = st.driver_turbo_ := by
  simp only [TechnoJays.buttonsShootStart]
  split <;> rfl

@[simp] lemma buttonsShootStart_dp (st : RobotState) (env : Env) :
    (TechnoJays.buttonsShootStart st env).drive_present = st.drive_present := by
  simp only [TechnoJays.buttonsShootStart]
  split <;> rfl

@[simp] lemma buttonsRapidStart_turbo (st : RobotState) (env : Env) :
    (TechnoJays.buttonsRapidStart st env).driver_turbo_ = st.driver_turbo_ := by
  simp only [TechnoJays.buttonsRapidStart]
  split <;> rfl

@[simp] lemma buttonsRapidStart_dp (st : RobotState) (env : Env) :
    (TechnoJays.buttonsRapidStart st env).drive_present = st.drive_present := by
  simp only [TechnoJays.buttonsRapidStart]
  split <;> rfl

@[simp] lemma buttonsFindStart_turbo (st : RobotState) (env : Env) :
    (TechnoJays.buttonsFindStart st env).driver_turbo_ = st.driver_turbo_ := by
  simp only [TechnoJays.buttonsFindStart]
  split <;> rfl

@[simp] lemma buttonsFindStart_dp (st : RobotState) (env : Env) :
    (TechnoJays.buttonsFindStart st env).drive_present = st.drive_present := by
  simp only [TechnoJays.buttonsFindStart]
  split <;> rfl

@[simp] lemma buttonsCycleStart_turbo (st : RobotState) (env : Env) :
    (TechnoJays.buttonsCycleStart st env).driver_turbo_ = st.driver_turbo_ := by
  simp only [TechnoJays.buttonsCycleStart]
  split <;> rfl

@[simp] lemma buttonsCycleStart_dp (st : RobotState) (env : Env) :
    (TechnoJays.buttonsCycleStart st env).drive_present = st.drive_present := by
  simp only [TechnoJays.buttonsCycleStart]
  split <;> rfl

@[simp] lemma buttonsFeederStart_turbo (st : RobotState) (env : Env) :
    (TechnoJays.buttonsFeederStart st env).driver_turbo_ = st.driver_turbo_ := by
  simp only [TechnoJays.buttonsFeederStart]
  split <;> rfl

@[simp] lemma buttonsFeederStart_dp (st : RobotState) (env : Env) :
    (TechnoJays.buttonsFeederStart st env).drive_present = st.drive_present := by
  simp only [TechnoJays.buttonsFeederStart]
  split <;> rfl

@[simp] lemma buttonsPrepStart_turbo (st : RobotState) (env : Env) :
    (TechnoJays.buttonsPrepStart st env).driver_turbo_ = st.driver_turbo_ := by
  simp only [TechnoJays.buttonsPrepStart]
  split <;> rfl

@[simp] lemma buttonsPrepStart_dp (st : RobotState) (env : Env) :
    (TechnoJays.buttonsPrepStart st env).drive_present = st.drive_present := by
  simp only [TechnoJays.buttonsPrepStart]
  split <;> rfl

@[simp] lemma buttonsClimbStart_turbo (st : RobotState) (env : Env) :
    (TechnoJays.buttonsClimbStart st env).driver_turbo_ = st.driver_turbo_ := by
  simp only [TechnoJays.buttonsClimbStart]
  split <;> rfl

@[simp] lemma buttonsClimbStart_dp (st : RobotState) (env : Env) :
    (TechnoJays.buttonsClimbStart st env).drive_present = st.drive_present := by
  simp only [TechnoJays.buttonsClimbStart]
  split <;> rfl

@[simp] lemma buttonsBlock_turbo (st : RobotState) (env : Env) :
    (TechnoJays.teleopButtonsBlock st env).driver_turbo_ = env.driver_right_bumper := by
  simp only [TechnoJays.teleopButtonsBlock, buttonsClimbStart_turbo,
    buttonsPrepStart_turbo, buttonsFeederStart_turbo, buttonsCycleStart_turbo,
    buttonsFindStart_turbo, buttonsRapidStart_turbo, buttonsShootStart_turbo,
    buttonsBase_turbo]

@[simp] lemma buttonsBlock_dp (st : RobotState) (env : Env) :
    (TechnoJays.teleopButtonsBlock st env).drive_present = st.drive_present := by
  simp only [TechnoJays.teleopButtonsBlock, buttonsClimbStart_dp,
    buttonsPrepStart_dp, buttonsFeederStart_dp, buttonsCycleStart_dp,
    buttonsFindStart_dp, buttonsRapidStart_dp, buttonsShootStart_dp,
    buttonsBase_dp]

@[simp] lemma winchBlock_dp (st : RobotState) (env : Env) :
    (TechnoJays.teleopManualWinch st env).1.drive_present = st.drive_present := by
  simp only [TechnoJays.teleopManualWinch]
  repeat' split
  all_goals rfl

@[simp] lemma winchBlock_turbo (st : RobotState) (env : Env) :
    (TechnoJays.teleopManualWinch st env).1.driver_turbo_ = st.driver_turbo_ := by
  simp only [TechnoJays.teleopManualWinch]
  repeat' split
  all_goals rfl

@[simp] lemma winchBlock_no_chassis (st : RobotState) (env : Env) :
    (TechnoJays.teleopManualWinch st env).2.filter (fun p => p.2.isChassis) = [] := by
  simp only [TechnoJays.teleopManualWinch]
  repeat' split
  all_goals rfl

@[simp] lemma pitchBlock_dp (st : RobotState) (env : Env) :
    (TechnoJays.teleopManualPitch st env).1.drive_present = st.drive_present := by
  simp only [TechnoJays.teleopManualPitch]
  repeat' split
  all_goals rfl

@[simp] lemma pitchBlock_turbo (st : RobotState) (env : Env) :
    (TechnoJays.teleopManualPitch st env).1.driver_turbo_ = st.driver_turbo_ := by
  simp only [TechnoJays.teleopManualPitch]
  repeat' split
  all_goals rfl

@[simp] lemma pitchBlock_no_chassis (st : RobotState) (env : Env) :
    (TechnoJays.teleopManualPitch st env).2.filter (fun p => p.2.isChassis) = [] := by
  simp only [TechnoJays.teleopManualPitch]
  repeat' split
  all_goals rfl

@[simp] lemma wheelBlock_dp (st : RobotState) (env : Env) :
    (TechnoJays.teleopManualShooter st env).1.drive_present = st.drive_present := by
  simp only [TechnoJays.teleopManualShooter]
  repeat' split
  all_goals rfl

@[simp] lemma wheelBlock_turbo (st : RobotState) (env : Env) :
    (TechnoJays.teleopManualShooter st env).1.driver_turbo_ = st.driver_turbo_ := by
  simp only [TechnoJays.teleopManualShooter]
  repeat' split
  all_goals rfl

@[simp] lemma wheelBlock_no_chassis (st : RobotState) (env : Env) :
    (TechnoJays.teleopManualShooter st env).2.filter (fun p => p.2.isChassis) = [] := by
  simp only [TechnoJays.teleopManualShooter]
  repeat' split
  all_goals rfl

@[simp] lemma feederBlock_dp (st : RobotState) (env : Env) :
    (TechnoJays.teleopManualFeeder st env).1.drive_present = st.drive_present := by
  simp only [TechnoJays.teleopManualFeeder]
  repeat' split
  all_goals rfl

@[simp] lemma feederBlock_turbo (st : RobotState) (env : Env) :
    (TechnoJays.teleopManualFeeder st env).1.driver_turbo_ = st.driver_turbo_ := by
  simp only [TechnoJays.teleopManualFeeder]
  repeat' split
  all_goals rfl

@[simp] lemma feederBlock_no_chassis (st : RobotState) (env : Env) :
    (TechnoJays.teleopManualFeeder st env).2.filter (fun p => p.2.isChassis) = [] := by
  simp only [TechnoJays.teleopManualFeeder]
  repeat' split
  all_goals rfl

@[simp] lemma loggingBlock_find (st : RobotState) (env : Env) :
    (TechnoJays.teleopLoggingBlock st env).auto_find_target_state_ =
      st.auto_find_target_state_ := by
  simp only [TechnoJays.teleopLoggingBlock]
  repeat' split
  all_goals rfl

@[simp] lemma loggingBlock_cycle (st : RobotState) (env : Env) :
    (TechnoJays.teleopLoggingBlock st env).auto_cycle_target_state_ =
      st.auto_cycle_target_state_ := by
  simp only [TechnoJays.teleopLoggingBlock]
  repeat' split
  all_goals rfl

@[simp] lemma loggingBlock_climb (st : RobotState) (env : Env) :
    (TechnoJays.teleopLoggingBlock st env).auto_climb_state_ = st.auto_climb_state_ := by
  simp only [TechnoJays.teleopLoggingBlock]
  repeat' split
  all_goals rfl

/-- When the drive thumbsticks are deflected and the drive train exists,
the manual drive block finishes the three chassis-commanding routine states
and issues exactly the manual tank-drive call. -/
lemma driveBlock_manual (st : RobotState) (env : Env)
    (hdp : st.drive_present = true)
    (hstick : env.driver_left_y ≠ 0 ∨ env.driver_right_y ≠ 0) :
    TechnoJays.teleopManualDrive st env =
      ({ st with auto_find_target_state_ := RStep.kFinished, auto_cycle_target_state_ := RStep.kFinished, auto_climb_state_ := RStep.kFinished },
       [(CmdSource.manual,
         SubsystemCall.tankDriveCall env.driver_left_y env.driver_right_y st.driver_turbo_)]) := by
  simp only [TechnoJays.teleopManualDrive]
  rw [if_pos hstick, if_pos (show ({ st with auto_find_target_state_ := RStep.kFinished, auto_cycle_target_state_ := RStep.kFinished, auto_climb_state_ := RStep.kFinished } : RobotState).drive_present = true from hdp)]

lemma driveBlock_find (st : RobotState) (env : Env)
    (hstick : env.driver_left_y ≠ 0 ∨ env.driver_right_y ≠ 0) :
    (TechnoJays.teleopManualDrive st env).1.auto_find_target_state_ = RStep.kFinished := by
  simp only [TechnoJays.teleopManualDrive]
  rw [if_pos hstick]
  split <;> rfl

lemma driveBlock_cycle (st : RobotState) (env : Env)
    (hstick : env.driver_left_y ≠ 0 ∨ env.driver_right_y ≠ 0) :
    (TechnoJays.teleopManualDrive st env).1.auto_cycle_target_state_ = RStep.kFinished := by
  simp only [TechnoJays.teleopManualDrive]
  rw [if_pos hstick]
  split <;> rfl

lemma driveBlock_climb (st : RobotState) (env : Env)
    (hstick : env.driver_left_y ≠ 0 ∨ env.driver_right_y ≠ 0) :
    (TechnoJays.teleopManualDrive st env).1.auto_climb_state_ = RStep.kFinished := by
  simp only [TechnoJays.teleopManualDrive]
  rw [if_pos hstick]
  split <;> rfl

/-- With the sticks deflected and the drive train present, the manual
drive block's chassis commands are exactly the one manual tank-drive
call. -/
lemma driveBlock_chassis (st : RobotState) (env : Env)
    (hstick : env.driver_left_y ≠ 0 ∨ env.driver_right_y ≠ 0)
    (hdp : st.drive_present = true) :
    (TechnoJays.teleopManualDrive st env).2.filter (fun q => q.2.isChassis) =
      [(CmdSource.manual,
        SubsystemCall.tankDriveCall env.driver_left_y env.driver_right_y st.driver_turbo_)] := by
  rw [driveBlock_manual st env hdp hstick]
  rfl

/-- The user-interface phase on a tick with a deflected drive stick:
the three chassis-commanding routine states leave the phase Finished, and
its only chassis-tagged command is the manual tank-drive call. -/
lemma uiPhase_spec (st : RobotState) (env : Env)
    (hui : st.user_interface_present = true)
    (hstick : env.driver_left_y ≠ 0 ∨ env.driver_right_y ≠ 0)
    (hdp : st.drive_present = true) :
    (TechnoJays.teleopUiPhase st env).1.auto_find_target_state_ = RStep.kFinished ∧
    (TechnoJays.teleopUiPhase st env).1.auto_cycle_target_state_ = RStep.kFinished ∧
    (TechnoJays.teleopUiPhase st env).1.auto_climb_state_ = RStep.kFinished ∧
    (TechnoJays.teleopUiPhase st env).2.filter (fun q => q.2.isChassis) =
      [(CmdSource.manual,
        SubsystemCall.tankDriveCall env.driver_left_y env.driver_right_y env.driver_right_bumper)] := by
  have hdpF : (TechnoJays.teleopManualFeeder (TechnoJays.teleopManualShooter (TechnoJays.teleopManualPitch (TechnoJays.teleopManualWinch (TechnoJays.teleopButtonsBlock st env) env).1 env).1 env).1 env).1.drive_present = true := by
    simp [hdp]
  have hturboF : (TechnoJays.teleopManualFeeder (TechnoJays.teleopManualShooter (TechnoJays.teleopManualPitch (TechnoJays.teleopManualWinch (TechnoJays.teleopButtonsBlock st env) env).1 env).1 env).1 env).1.driver_turbo_ = env.driver_right_bumper := by
    simp
  simp only [TechnoJays.teleopUiPhase]
  rw [if_neg (by simp [hui])]
  refine ⟨?_, ?_, ?_, ?_⟩
  · rw [loggingBlock_find]
    exact driveBlock_find _ env hstick
  · rw [loggingBlock_cycle]
    exact driveBlock_cycle _ env hstick
  · rw [loggingBlock_climb]
    exact driveBlock_climb _ env hstick
  · simp only [List.filter_append, winchBlock_no_chassis, pitchBlock_no_chassis,
      wheelBlock_no_chassis, feederBlock_no_chassis, List.nil_append]
    rw [driveBlock_chassis _ env hstick hdpF, hturboF]

/-- Scenario E's state: AutoClimb live at its second step, every other
routine Finished. -/
def c1St : RobotState := { baseRobot with auto_climb_state_ := RStep.kStep2 }

/-- Scenario E's environment: the driver's left thumbstick deflected. -/
def c1Env : Env := { baseEnv with driver_left_y := 1/2 }

/-- Counterexample for C1: on the very tick the drive stick is first
deflected while AutoClimb is at Step2, the routine section still runs
before the manual arbitration, so the chassis receives a command from the
climb routine AND the manual tank-drive command: two logical sources
command the same actuator inside one tick, and the routine's command is
issued, not suppressed. -/
theorem c1_counterexample :
    (TechnoJays.teleopPeriodic c1St c1Env).2.filter (fun q => q.2.isChassis) =
      [(CmdSource.climbRoutine, SubsystemCall.driveManualCall (-3/10) 0 false),
       (CmdSource.manual, SubsystemCall.tankDriveCall (1/2) 0 false)] := by
  have hrsp : TechnoJays.readSensorsPeriodic c1St c1Env = c1St := by
    simp [TechnoJays.readSensorsPeriodic, Shooter.readSensors, DriveTrain.readSensors,
      Climber.readSensors, c1St, baseRobot, sStA, dtStA, cStA, c1Env, baseEnv]
  have hchain : TechnoJays.routinePrep (TechnoJays.routineFeederHeight
      (TechnoJays.routineCycle (TechnoJays.routineFind (TechnoJays.routineShoot
        (TechnoJays.routineRapid (c1St, []) c1Env) c1Env) c1Env) c1Env)) =
      (c1St, []) := rfl
  have hsp : Shooter.setPitch sCfgA sStA 100 1 = (some (3/5), false) := by
    norm_num [Shooter.setPitch, sCfgA, sStA]
  have hct : Climber.setTimed cCfgA cStA 5 Direction.kDown (8/10) 0 =
      (cStA, some (-(4/5)), false) := by
    simp only [Climber.setTimed, cCfgA, cStA]
    norm_num [TimerState.get]
    decide
  have hac : (TechnoJays.autoClimb c1St c1Env).2 =
      ([SubsystemCall.driveManualCall (-3/10) 0 false,
        SubsystemCall.setPitchCall 100 1,
        SubsystemCall.climberSetTimedCall 5 Direction.kDown (8/10)], false) := by
    simp [TechnoJays.autoClimb, c1St, baseRobot, c1Env, baseEnv, hsp, hct]
  have hcond : (c1St, ([] : List (CmdSource × SubsystemCall))).1.auto_climb_state_ ≠
      RStep.kFinished := by decide
  have h1 : (TechnoJays.teleopRoutinePhase c1St c1Env).2 =
      [(CmdSource.climbRoutine, SubsystemCall.driveManualCall (-3/10) 0 false),
       (CmdSource.climbRoutine, SubsystemCall.setPitchCall 100 1),
       (CmdSource.climbRoutine, SubsystemCall.climberSetTimedCall 5 Direction.kDown (8/10))] := by
    simp only [TechnoJays.teleopRoutinePhase]
    rw [hchain]
    simp only [TechnoJays.routineClimb]
    rw [if_pos hcond]
    show [] ++ List.map (fun c => (CmdSource.climbRoutine, c))
        (TechnoJays.autoClimb c1St c1Env).2.1 = _
    rw [hac]
    rfl
  have hui1 : (TechnoJays.teleopRoutinePhase c1St c1Env).1.user_interface_present = true := by
    simp [c1St, baseRobot]
  have hdp1 : (TechnoJays.teleopRoutinePhase c1St c1Env).1.drive_present = true := by
    simp [c1St, baseRobot]
  have hstick1 : c1Env.driver_left_y ≠ 0 ∨ c1Env.driver_right_y ≠ 0 :=
    Or.inl (by norm_num [c1Env, baseEnv])
  have h2 := (uiPhase_spec (TechnoJays.teleopRoutinePhase c1St c1Env).1 c1Env
    hui1 hstick1 hdp1).2.2.2
  have e1 : c1Env.driver_left_y = 1/2 := rfl
  have e2 : c1Env.driver_right_y = 0 := rfl
  have e3 : c1Env.driver_right_bumper = false := rfl
  rw [e1, e2, e3] at h2
  simp only [TechnoJays.teleopPeriodic]
  rw [hrsp, List.filter_append, h1, h2]
  rfl

/-- C1 (amended): on any Teleop tick with the user interface present, a
drive stick deflected and the drive train present, the three routine
states that command the chassis are Finished at the end of the tick and
the LAST chassis-tagged command issued during the tick is the manual
tank-drive command — so the manual command wins the actuator by write
order, although (per the counterexample) a still-live routine may also
have commanded the chassis earlier in the very same tick. -/
theorem c1_amended (st : RobotState) (env : Env)
    (hui : st.user_interface_present = true)
    (hstick : env.driver_left_y ≠ 0 ∨ env.driver_right_y ≠ 0)
    (hdp : st.drive_present = true) :
    (TechnoJays.teleopPeriodic st env).1.auto_find_target_state_ = RStep.kFinished ∧
    (TechnoJays.teleopPeriodic st env).1.auto_cycle_target_state_ = RStep.kFinished ∧
    (TechnoJays.teleopPeriodic st env).1.auto_climb_state_ = RStep.kFinished ∧
    ((TechnoJays.teleopPeriodic st env).2.filter (fun q => q.2.isChassis)).getLast? =
      some (CmdSource.manual,
        SubsystemCall.tankDriveCall env.driver_left_y env.driver_right_y env.driver_right_bumper) := by
  have hui1 : (TechnoJays.teleopRoutinePhase (TechnoJays.readSensorsPeriodic st env) env).1.user_interface_present = true := by
    simp [hui]
  have hdp1 : (TechnoJays.teleopRoutinePhase (TechnoJays.readSensorsPeriodic st env) env).1.drive_present = true := by
    simp [hdp]
  have hspec := uiPhase_spec (TechnoJays.teleopRoutinePhase
    (TechnoJays.readSensorsPeriodic st env) env).1 env hui1 hstick hdp1
  simp only [TechnoJays.teleopPeriodic]
  refine ⟨hspec.1, hspec.2.1, hspec.2.2.1, ?_⟩
  rw [List.filter_append, hspec.2.2.2, List.getLast?_concat]

/-- Witness for C1's amended theorem at the Scenario E fixtures. -/
theorem c1_witness :
    c1St.user_interface_present = true ∧
    (c1Env.driver_left_y ≠ 0 ∨ c1Env.driver_right_y ≠ 0) ∧
    c1St.drive_present = true ∧
    ((TechnoJays.teleopPeriodic c1St c1Env).2.filter (fun q => q.2.isChassis)).getLast? =
      some (CmdSource.manual,
        SubsystemCall.tankDriveCall c1Env.driver_left_y c1Env.driver_right_y c1Env.driver_right_bumper) :=
  ⟨rfl, Or.inl (by norm_num [c1Env, baseEnv]), rfl,
   (c1_amended c1St c1Env rfl (Or.inl (by norm_num [c1Env, baseEnv])) rfl).2.2.2⟩

end Robot2013
